import Mathlib

/-!
Schema bootstrap of the hotel back end (`src/utils/dbUtils.js`).

A shallow embedding of `createTable`, `seedInitialData`, `initializeDatabase`
and `checkDatabaseConnection`, together with the table registry
`tableDefinitions`.

The asynchronous functions of the source run strictly sequentially (every
call is awaited), so each one is embedded as a function from the current
state to an outcome (a value or a thrown error) and the next state.  The
connection pool imported from `../config/db.js` is not among the sources: the
functions take it as a parameter, and a small relational store is modelled
where a statement about the contents of the store is needed.
-/

namespace PMS

/-! ## Outcomes, events and the program monad -/

/-- Identifier of a pooled connection. -/
abbrev ConnId := Nat

/-- A cell of a result row. -/
inductive Value where
  | int (n : Nat)
  | text (s : String)
  deriving DecidableEq, Repr

/-- A row: column name and value, in column order. -/
abbrev Row := List (String × Value)

/-- What the functions do to the outside world, in the order they do it. -/
inductive Event (ε : Type) where
  | acquired (conn : ConnId)
  | acquireFailed (cause : ε)
  | query (conn : ConnId) (sql : String) (params : List String) (ok : Bool)
  | poolQuery (sql : String) (ok : Bool)
  | release (conn : ConnId)
  | consoleLog (msg : String)
  | consoleError (msg : String) (cause : ε)
  deriving DecidableEq, Repr

/-- The pool of `../config/db.js` as the functions use it: `pool.getConnection()`,
`conn.query(sql, params)`, `pool.query(sql)` and `conn.release()`, over an
arbitrary state `σ` of the outside world and an arbitrary type `ε` of the errors
the driver raises.  A failing call may change the state too. -/
structure Pool (σ ε : Type) where
  getConnection : σ → Except ε ConnId × σ
  connQuery : ConnId → String → List String → σ → Except ε (List Row) × σ
  poolQuery : String → σ → Except ε (List Row) × σ
  release : ConnId → σ → σ

deriving instance DecidableEq for Except

/-- State of a run: the outside world and the events recorded so far. -/
structure Run (σ ε : Type) where
  env : σ
  trace : List (Event ε)

/-- A computation that may throw: the state survives a throw, as in JavaScript. -/
def Prog (σ ε α : Type) : Type := Run σ ε → Except ε α × Run σ ε

namespace Prog

variable {σ ε α β : Type}

def pure (a : α) : Prog σ ε α := fun r => (.ok a, r)

def bind (x : Prog σ ε α) (f : α → Prog σ ε β) : Prog σ ε β := fun r =>
  match x r with
  | (.ok a, r1) => f a r1
  | (.error e, r1) => (.error e, r1)

def throw (e : ε) : Prog σ ε α := fun r => (.error e, r)

/-- The `try ... catch` of the source. -/
def tryCatch (x : Prog σ ε α) (h : ε → Prog σ ε α) : Prog σ ε α := fun r =>
  match x r with
  | (.ok a, r1) => (.ok a, r1)
  | (.error e, r1) => h e r1

/-- The `try ... finally` of the source: the finaliser runs on both exits; the
outcome of the body is kept unless the finaliser itself throws. -/
def tryFinally (x : Prog σ ε α) (fin : Option α → Prog σ ε β) : Prog σ ε (α × β) := fun r =>
  match x r with
  | (.ok a, r1) =>
    match fin (some a) r1 with
    | (.ok b, r2) => (.ok (a, b), r2)
    | (.error e, r2) => (.error e, r2)
  | (.error e, r1) =>
    match fin none r1 with
    | (.ok _, r2) => (.error e, r2)
    | (.error e2, r2) => (.error e2, r2)

end Prog

instance {σ ε : Type} : Monad (Prog σ ε) where
  pure := Prog.pure
  bind := Prog.bind

instance {σ ε : Type} : MonadExcept ε (Prog σ ε) where
  throw := Prog.throw
  tryCatch := Prog.tryCatch

instance {σ ε : Type} : MonadFinally (Prog σ ε) where
  tryFinally' := Prog.tryFinally

/-! ## The registry `tableDefinitions` -/

/-- The entry `tableDefinitions.users`. -/
def tableDefinitions.users : String := "
    CREATE TABLE IF NOT EXISTS users (
      id INT AUTO_INCREMENT PRIMARY KEY,
      username VARCHAR(50) NOT NULL UNIQUE,
      email VARCHAR(100) NOT NULL UNIQUE,
      password VARCHAR(255) NOT NULL,
      first_name VARCHAR(50),
      last_name VARCHAR(50),
      mobile VARCHAR(20),
      user_type ENUM('super_admin','admin','manager','staff','guest') NOT NULL DEFAULT 'guest',
      is_active BOOLEAN NOT NULL DEFAULT TRUE,
      last_login DATETIME,
      failed_login_attempts INT DEFAULT 0,
      password_reset_token VARCHAR(255),
      password_reset_expires DATETIME,
      created_at TIMESTAMP DEFAULT CURRENT_TIMESTAMP,
      updated_at TIMESTAMP DEFAULT CURRENT_TIMESTAMP ON UPDATE CURRENT_TIMESTAMP,
      INDEX idx_email (email),
      INDEX idx_user_type (user_type)
    ) ENGINE=InnoDB DEFAULT CHARSET=utf8mb4 COLLATE=utf8mb4_unicode_ci
  "

/-- The entry `tableDefinitions.rooms`. -/
def tableDefinitions.rooms : String := "
    CREATE TABLE IF NOT EXISTS rooms (
      id INT AUTO_INCREMENT PRIMARY KEY,
      room_number VARCHAR(10) NOT NULL UNIQUE,
      room_type VARCHAR(50) NOT NULL,
      status ENUM('available','occupied','maintenance','reserved') NOT NULL DEFAULT 'available',
      price_per_night DECIMAL(10,2) NOT NULL,
      capacity INT NOT NULL,
      amenities TEXT,
      created_at TIMESTAMP DEFAULT CURRENT_TIMESTAMP,
      updated_at TIMESTAMP DEFAULT CURRENT_TIMESTAMP ON UPDATE CURRENT_TIMESTAMP,
      INDEX idx_room_type (room_type),
      INDEX idx_status (status)
    ) ENGINE=InnoDB DEFAULT CHARSET=utf8mb4 COLLATE=utf8mb4_unicode_ci
  "

/-- The entry `tableDefinitions.housekeeping_tasks`. -/
def tableDefinitions.housekeeping_tasks : String := "
    CREATE TABLE IF NOT EXISTS housekeeping_tasks (
      id INT AUTO_INCREMENT PRIMARY KEY,
      room_id INT NOT NULL,
      status ENUM('clean','dirty','in_progress','inspected') NOT NULL DEFAULT 'clean',
      staff_id INT,
      notes TEXT,
      created_at TIMESTAMP DEFAULT CURRENT_TIMESTAMP,
      updated_at TIMESTAMP DEFAULT CURRENT_TIMESTAMP ON UPDATE CURRENT_TIMESTAMP,
      FOREIGN KEY (room_id) REFERENCES rooms(id),
      FOREIGN KEY (staff_id) REFERENCES users(id),
      INDEX idx_status (status)
    ) ENGINE=InnoDB DEFAULT CHARSET=utf8mb4 COLLATE=utf8mb4_unicode_ci
  "

/-- The entry `tableDefinitions.special_requests`. -/
def tableDefinitions.special_requests : String := "
    CREATE TABLE IF NOT EXISTS special_requests (
      id INT AUTO_INCREMENT PRIMARY KEY,
      user_id INT NOT NULL,
      room_id INT NOT NULL,
      request_type VARCHAR(50) NOT NULL,
      description TEXT,
      status ENUM('pending','in_progress','completed','cancelled') NOT NULL DEFAULT 'pending',
      created_at TIMESTAMP DEFAULT CURRENT_TIMESTAMP,
      updated_at TIMESTAMP DEFAULT CURRENT_TIMESTAMP ON UPDATE CURRENT_TIMESTAMP,
      FOREIGN KEY (user_id) REFERENCES users(id),
      FOREIGN KEY (room_id) REFERENCES rooms(id)
    ) ENGINE=InnoDB DEFAULT CHARSET=utf8mb4 COLLATE=utf8mb4_unicode_ci
  "

/-- The entry `tableDefinitions.staff`. -/
def tableDefinitions.staff : String := "
    CREATE TABLE IF NOT EXISTS staff (
      id INT AUTO_INCREMENT PRIMARY KEY,
      user_id INT NOT NULL,
      position VARCHAR(50) NOT NULL,
      department VARCHAR(50) NOT NULL,
      hire_date DATE NOT NULL,
      FOREIGN KEY (user_id) REFERENCES users(id)
    ) ENGINE=InnoDB DEFAULT CHARSET=utf8mb4 COLLATE=utf8mb4_unicode_ci
  "

/-- The entry `tableDefinitions.payments`. -/
def tableDefinitions.payments : String := "
    CREATE TABLE IF NOT EXISTS payments (
      id INT AUTO_INCREMENT PRIMARY KEY,
      user_id INT NOT NULL,
      amount DECIMAL(10,2) NOT NULL,
      payment_method VARCHAR(50) NOT NULL,
      transaction_id VARCHAR(100),
      status ENUM('pending','completed','failed','refunded') NOT NULL DEFAULT 'pending',
      payment_date DATETIME NOT NULL,
      FOREIGN KEY (user_id) REFERENCES users(id)
    ) ENGINE=InnoDB DEFAULT CHARSET=utf8mb4 COLLATE=utf8mb4_unicode_ci
  "

/-- The entry `tableDefinitions.invoices`. -/
def tableDefinitions.invoices : String := "
    CREATE TABLE IF NOT EXISTS invoices (
      id INT AUTO_INCREMENT PRIMARY KEY,
      user_id INT NOT NULL,
      amount DECIMAL(10,2) NOT NULL,
      issue_date DATE NOT NULL,
      due_date DATE NOT NULL,
      status ENUM('unpaid','paid','overdue') NOT NULL DEFAULT 'unpaid',
      FOREIGN KEY (user_id) REFERENCES users(id)
    ) ENGINE=InnoDB DEFAULT CHARSET=utf8mb4 COLLATE=utf8mb4_unicode_ci
  "

/-- The entry `tableDefinitions.tax_payments`. -/
def tableDefinitions.tax_payments : String := "
    CREATE TABLE IF NOT EXISTS tax_payments (
      id INT AUTO_INCREMENT PRIMARY KEY,
      tax_type VARCHAR(50) NOT NULL,
      amount DECIMAL(10,2) NOT NULL,
      payment_date DATE NOT NULL,
      reference_number VARCHAR(100) NOT NULL
    ) ENGINE=InnoDB DEFAULT CHARSET=utf8mb4 COLLATE=utf8mb4_unicode_ci
  "

/-- The entry `tableDefinitions.audit_logs`. -/
def tableDefinitions.audit_logs : String := "
    CREATE TABLE IF NOT EXISTS audit_logs (
      id INT AUTO_INCREMENT PRIMARY KEY,
      user_id INT,
      action VARCHAR(50) NOT NULL,
      table_name VARCHAR(50) NOT NULL,
      record_id INT,
      old_values JSON,
      new_values JSON,
      ip_address VARCHAR(45),
      created_at TIMESTAMP DEFAULT CURRENT_TIMESTAMP,
      FOREIGN KEY (user_id) REFERENCES users(id)
    ) ENGINE=InnoDB DEFAULT CHARSET=utf8mb4 COLLATE=utf8mb4_unicode_ci
  "

section Operations

variable {σ ε : Type}

/-- Append an event to the trace. -/
def emit (ev : Event ε) : Prog σ ε Unit := fun r =>
  (.ok (), { r with trace := r.trace ++ [ev] })

/-- The call `console.log(msg)`. -/
def consoleLog (msg : String) : Prog σ ε Unit := emit (.consoleLog msg)

/-- The call `console.error(msg, error)`. -/
def consoleError (msg : String) (cause : ε) : Prog σ ε Unit := emit (.consoleError msg cause)

/-- The call `await pool.getConnection()`. -/
def getConnection (P : Pool σ ε) : Prog σ ε ConnId := fun r =>
  match P.getConnection r.env with
  | (.ok c, s) => (.ok c, { env := s, trace := r.trace ++ [.acquired c] })
  | (.error e, s) => (.error e, { env := s, trace := r.trace ++ [.acquireFailed e] })

/-- The call `await conn.query(sql, params)`. -/
def connQuery (P : Pool σ ε) (conn : ConnId) (sql : String) (params : List String) :
    Prog σ ε (List Row) := fun r =>
  match P.connQuery conn sql params r.env with
  | (.ok rows, s) => (.ok rows, { env := s, trace := r.trace ++ [.query conn sql params true] })
  | (.error e, s) => (.error e, { env := s, trace := r.trace ++ [.query conn sql params false] })

/-- The call `await pool.query(sql)`. -/
def poolQuery (P : Pool σ ε) (sql : String) : Prog σ ε (List Row) := fun r =>
  match P.poolQuery sql r.env with
  | (.ok rows, s) => (.ok rows, { env := s, trace := r.trace ++ [.poolQuery sql true] })
  | (.error e, s) => (.error e, { env := s, trace := r.trace ++ [.poolQuery sql false] })

/-- The call `conn.release()`. -/
def release (P : Pool σ ε) (conn : ConnId) : Prog σ ε Unit := fun r =>
  (.ok (), { env := P.release conn r.env, trace := r.trace ++ [.release conn] })

/-! ## The functions of `dbUtils.js` -/

/-- The function `createTable(tableName, query)`. -/
def createTable (P : Pool σ ε) (tableName query : String) : Prog σ ε Unit := do
  let conn ← getConnection P
  try
    let _ ← connQuery P conn "SET FOREIGN_KEY_CHECKS = 0" []
    let _ ← connQuery P conn ("DROP TABLE IF EXISTS " ++ tableName) []
    let _ ← connQuery P conn query []
    let _ ← connQuery P conn "SET FOREIGN_KEY_CHECKS = 1" []
    consoleLog ("✅ Table " ++ tableName ++ " créée")
  catch error =>
    consoleError ("❌ Erreur création table " ++ tableName ++ ":") error
    throw error
  finally
    release P conn

/-- The text of the existence check of `seedInitialData`. -/
def selectSuperAdminSql : String :=
  "SELECT id FROM users WHERE user_type = \"super_admin\" LIMIT 1"

/-- The text of the insertion of `seedInitialData`. -/
def insertAdminSql : String :=
  "INSERT INTO users \n        (username, email, password, first_name, last_name, user_type) \n        VALUES (?, ?, ?, ?, ?, ?)"

/-- The constant `hashedPassword` of `seedInitialData`. -/
def hashedPassword : String := "$2a$10$N9qo8uLOickgx2ZMRZoMy.MZHbjS2X6AJR6dRWRo7KTCCa7Pq3L8a"

/-- The parameters bound to the insertion of `seedInitialData`. -/
def adminParams : List String :=
  ["admin", "admin@example.com", hashedPassword, "System", "Admin", "super_admin"]

/-- The function `seedInitialData()`. -/
def seedInitialData (P : Pool σ ε) : Prog σ ε Unit := do
  let conn ← getConnection P
  try
    let rows ← connQuery P conn selectSuperAdminSql []
    if rows.length = 0 then
      let _ ← connQuery P conn insertAdminSql adminParams
      consoleLog "👑 Compte admin créé"
  catch error =>
    consoleError "Erreur initialisation données:" error
    throw error
  finally
    release P conn

/-- The function `initializeDatabase()`. -/
def initializeDatabase (P : Pool σ ε) : Prog σ ε Bool := do
  try
    consoleLog "🚀 Début initialisation DB..."
    createTable P "users" tableDefinitions.users
    createTable P "rooms" tableDefinitions.rooms
    createTable P "housekeeping_tasks" tableDefinitions.housekeeping_tasks
    createTable P "special_requests" tableDefinitions.special_requests
    createTable P "staff" tableDefinitions.staff
    createTable P "payments" tableDefinitions.payments
    createTable P "invoices" tableDefinitions.invoices
    createTable P "tax_payments" tableDefinitions.tax_payments
    createTable P "audit_logs" tableDefinitions.audit_logs
    seedInitialData P
    consoleLog "🎉 Base de données initialisée!"
    pure true
  catch error =>
    consoleError "💥 Erreur initialisation DB:" error
    throw error

/-- The function `checkDatabaseConnection()`. -/
def checkDatabaseConnection (P : Pool σ ε) : Prog σ ε Bool := do
  try
    let _ ← poolQuery P "SELECT 1"
    pure true
  catch error =>
    consoleError "Erreur connexion DB:" error
    pure false

/-- The calls of `createTable` in `initializeDatabase`, in source order. -/
def rebuildOrder : List (String × String) :=
  [("users", tableDefinitions.users),
   ("rooms", tableDefinitions.rooms),
   ("housekeeping_tasks", tableDefinitions.housekeeping_tasks),
   ("special_requests", tableDefinitions.special_requests),
   ("staff", tableDefinitions.staff),
   ("payments", tableDefinitions.payments),
   ("invoices", tableDefinitions.invoices),
   ("tax_payments", tableDefinitions.tax_payments),
   ("audit_logs", tableDefinitions.audit_logs)]

/-- A sequence of awaited `createTable` calls: the first failure ends it. -/
def rebuildAll (P : Pool σ ε) : List (String × String) → Prog σ ε Unit
  | [] => pure ()
  | (t, q) :: rest => do
    createTable P t q
    rebuildAll P rest

/-- The statements one call of `createTable` sends when none of them fails. -/
def rebuildStatements (tableName query : String) : List String :=
  ["SET FOREIGN_KEY_CHECKS = 0", "DROP TABLE IF EXISTS " ++ tableName, query,
   "SET FOREIGN_KEY_CHECKS = 1"]

/-- The statements a list of rebuilds sends when none of them fails. -/
def sentBy (l : List (String × String)) : List String :=
  (l.map fun tq => rebuildStatements tq.1 tq.2).flatten

/-- The statements sent through `conn.query`, in order. -/
def statements : List (Event ε) → List String
  | [] => []
  | .query _ sql _ _ :: evs => sql :: statements evs
  | _ :: evs => statements evs

/-- The event is the release of a connection. -/
def Event.isRelease : Event ε → Bool
  | .release _ => true
  | _ => false

/-- The event is the acquisition of a connection, successful or not. -/
def Event.isAcquire : Event ε → Bool
  | .acquired _ => true
  | .acquireFailed _ => true
  | _ => false

/-- The events a call appends to the trace while it holds connection `c`: the
first is the acquisition of `c`, the last is the release of `c`, and there is exactly one
acquisition and exactly one release among them, so nothing follows the release. -/
def ReleasedOnce (c : ConnId) (before after : List (Event ε)) : Prop :=
  ∃ new, after = before ++ new ∧ new.head? = some (.acquired c) ∧
    new.getLast? = some (.release c) ∧ new.countP Event.isRelease = 1 ∧
    new.countP Event.isAcquire = 1

/-- A creation statement the store rejects: the column list is never closed. -/
def malformedCreate : String := "CREATE TABLE IF NOT EXISTS housekeeping_tasks (id INT"

end Operations

/-! ## A relational store behind the pool

The store and the pool live outside `dbUtils.js`.  The model below covers the
statements the functions issue: the session variable `FOREIGN_KEY_CHECKS`,
`DROP TABLE IF EXISTS`, `CREATE TABLE IF NOT EXISTS`, the existence check and
the insertion of the seeding step, and `SELECT 1`.  Every call may also fail
for a reason of its own (a lost connection, a timeout): such failures are
scheduled in the field `faults`. -/

/-- Errors raised by the modelled driver. -/
inductive DbError where
  | parseError
  | noSuchTable (name : String)
  | wrongValueCount
  | fault (code : String)
  deriving DecidableEq, Repr

/-- A table of the store: the statement it was created with, its rows, and the
next `AUTO_INCREMENT` value. -/
structure Table where
  statement : String
  rows : List Row
  autoIncrement : Nat
  deriving DecidableEq, Repr

/-- Modelled from the spec: the store and the pool of `../config/db.js`, absent
from the sources.  Section 6 of the specification gives the interface (acquire
may fail, execute returns rows, release always succeeds and is idempotent);
`fkChecks c` is the session variable `FOREIGN_KEY_CHECKS` of connection `c`,
`free` the idle connections of the pool, `faults` the scheduled outcome of the
coming calls (`none`, or no entry: no failure of the call's own). -/
structure World where
  store : String → Option Table
  fkChecks : ConnId → Bool
  free : List ConnId
  nextConn : ConnId
  faults : List (Option DbError)

/-- The statements the store understands. -/
inductive Stmt where
  | setForeignKeyChecks (enabled : Bool)
  | dropTableIfExists (name : String)
  | createTableIfNotExists (name : String)
  | selectSuperAdmin
  | insertUser
  | select1
  deriving DecidableEq, Repr

/-- The table a statement may change, if any. -/
def Stmt.target : Stmt → Option String
  | .dropTableIfExists name => some name
  | .createTableIfNotExists name => some name
  | .insertUser => some "users"
  | _ => none

/-- Characters of an unquoted identifier. -/
def isIdentChar (c : Char) : Bool := c.isAlphanum || c == '_'

/-- Remove `pre` from the front of `cs`, if it is there. -/
def stripLeading : List Char → List Char → Option (List Char)
  | [], cs => some cs
  | _ :: _, [] => none
  | p :: ps, c :: cs => if p = c then stripLeading ps cs else none

/-- Parentheses are balanced: `depth` open ones are pending. -/
def balanced : Nat → List Char → Bool
  | depth, [] => depth == 0
  | depth, '(' :: cs => balanced (depth + 1) cs
  | 0, ')' :: _ => false
  | depth + 1, ')' :: cs => balanced depth cs
  | depth, _ :: cs => balanced depth cs

/-- Names of the tables after the keyword `REFERENCES` in a statement. -/
def referencesIn : List Char → List String
  | [] => []
  | c :: cs =>
    match stripLeading "REFERENCES ".data (c :: cs) with
    | some rest => String.mk (rest.takeWhile isIdentChar) :: referencesIn cs
    | none => referencesIn cs

/-- The tables a creation statement refers to by foreign key. -/
def referencedTables (sql : String) : List String := referencesIn sql.data

/-- Read `CREATE TABLE IF NOT EXISTS name ( ... ) ...`: leading blanks are
skipped, the name is an identifier, a parenthesis opens the column list and the
parentheses are balanced. -/
def parseCreate (cs : List Char) : Option Stmt :=
  match stripLeading "CREATE TABLE IF NOT EXISTS ".data (cs.dropWhile Char.isWhitespace) with
  | none => none
  | some rest =>
    let name := rest.takeWhile isIdentChar
    let body := (rest.dropWhile isIdentChar).dropWhile Char.isWhitespace
    if name ≠ [] ∧ body.head? = some '(' ∧ balanced 0 body = true then
      some (.createTableIfNotExists (String.mk name))
    else none

/-- Read `DROP TABLE IF EXISTS name`. -/
def parseDrop (cs : List Char) : Option Stmt :=
  match stripLeading "DROP TABLE IF EXISTS ".data cs with
  | none => none
  | some rest =>
    if rest ≠ [] ∧ rest.all isIdentChar = true then some (.dropTableIfExists (String.mk rest))
    else none

/-- Read a statement; `none` is a syntax error. -/
def parseSql (sql : String) : Option Stmt :=
  if sql = "SET FOREIGN_KEY_CHECKS = 0" then some (.setForeignKeyChecks false)
  else if sql = "SET FOREIGN_KEY_CHECKS = 1" then some (.setForeignKeyChecks true)
  else if sql = "SELECT 1" then some .select1
  else if sql = selectSuperAdminSql then some .selectSuperAdmin
  else if sql = insertAdminSql then some .insertUser
  else match parseDrop sql.data with
    | some st => some st
    | none => parseCreate sql.data

/-- The row has `user_type = "super_admin"`. -/
def isSuperAdmin (row : Row) : Bool := row.lookup "user_type" == some (.text "super_admin")

/-- The columns named by the insertion of `seedInitialData`. -/
def insertColumns : List String :=
  ["username", "email", "password", "first_name", "last_name", "user_type"]

/-- Replace the entry of one table. -/
def setTable (store : String → Option Table) (name : String) (t : Option Table) :
    String → Option Table :=
  fun n => if n = name then t else store n

/-- Take the next scheduled outcome. -/
def nextFault (w : World) : Option DbError × World :=
  match w.faults with
  | [] => (none, w)
  | f :: fs => (f, { w with faults := fs })

/-- Effect of a statement on connection `conn`, the call itself not failing. -/
def execStmt (conn : ConnId) (sql : String) (params : List String) (w : World) :
    Except DbError (List Row) × World :=
  match parseSql sql with
  | none => (.error .parseError, w)
  | some (.setForeignKeyChecks enabled) =>
    (.ok [], { w with fkChecks := fun c => if c = conn then enabled else w.fkChecks c })
  | some (.dropTableIfExists name) =>
    (.ok [], { w with store := setTable w.store name none })
  | some (.createTableIfNotExists name) =>
    match w.store name with
    | some _ => (.ok [], w)
    | none =>
      let t : Table := { statement := sql, rows := [], autoIncrement := 1 }
      (.ok [], { w with store := setTable w.store name (some t) })
  | some .selectSuperAdmin =>
    match w.store "users" with
    | none => (.error (.noSuchTable "users"), w)
    | some t =>
      let found := (t.rows.filter isSuperAdmin).take 1
      (.ok (found.map fun row => [("id", (row.lookup "id").getD (.int 0))]), w)
  | some .insertUser =>
    match w.store "users" with
    | none => (.error (.noSuchTable "users"), w)
    | some t =>
      if params.length = insertColumns.length then
        let row : Row := ("id", .int t.autoIncrement) :: insertColumns.zip (params.map Value.text)
        let t1 : Table := { t with rows := t.rows ++ [row], autoIncrement := t.autoIncrement + 1 }
        (.ok [], { w with store := setTable w.store "users" (some t1) })
      else (.error .wrongValueCount, w)
  | some .select1 => (.ok [[("1", .int 1)]], w)

/-- The call `pool.getConnection()` on the store: an idle connection if there is
one, a new one otherwise; a new connection starts with the checks enabled. -/
def World.getConnection (w : World) : Except DbError ConnId × World :=
  match nextFault w with
  | (some e, w1) => (.error e, w1)
  | (none, w1) =>
    match w1.free with
    | c :: cs => (.ok c, { w1 with free := cs })
    | [] =>
      (.ok w1.nextConn, { w1 with
        nextConn := w1.nextConn + 1,
        fkChecks := fun c => if c = w1.nextConn then true else w1.fkChecks c })

/-- The call `conn.query(sql, params)` on the store. -/
def World.connQuery (conn : ConnId) (sql : String) (params : List String) (w : World) :
    Except DbError (List Row) × World :=
  match nextFault w with
  | (some e, w1) => (.error e, w1)
  | (none, w1) => execStmt conn sql params w1

/-- The call `conn.release()` on the store: the connection goes back to the idle
ones with its session variables as they are; releasing twice changes nothing. -/
def World.release (conn : ConnId) (w : World) : World :=
  if conn ∈ w.free then w else { w with free := conn :: w.free }

/-- The call `pool.query(sql)` on the store: acquire, query, release. -/
def World.poolQuery (sql : String) (w : World) : Except DbError (List Row) × World :=
  match w.getConnection with
  | (.error e, w1) => (.error e, w1)
  | (.ok c, w1) =>
    match World.connQuery c sql [] w1 with
    | (res, w2) => (res, World.release c w2)

/-- The modelled store as a pool. -/
def mysqlPool : Pool World DbError where
  getConnection := World.getConnection
  connQuery := World.connQuery
  poolQuery := World.poolQuery
  release := World.release

/-- A store without tables, a pool without connections, no scheduled failure. -/
def emptyWorld : World where
  store := fun _ => none
  fkChecks := fun _ => true
  free := []
  nextConn := 0
  faults := []

/-- Start a run in a world. -/
def start (w : World) : Run World DbError := { env := w, trace := [] }

/-- The row the insertion of `seedInitialData` adds when the counter stands at `id`. -/
def adminRow (id : Nat) : Row := ("id", .int id) :: insertColumns.zip (adminParams.map Value.text)

/-- Number of rows of `users` with `user_type = "super_admin"`. -/
def superAdminCount (store : String → Option Table) : Nat :=
  match store "users" with
  | none => 0
  | some t => (t.rows.filter isSuperAdmin).length

/-- The names of the nine tables, in the order of `initializeDatabase`. -/
def tableNames : List String := rebuildOrder.map Prod.fst

/-- The store reads the name and the statement of a rebuild as the source means them. -/
def WellFormed (t q : String) : Prop :=
  parseSql ("DROP TABLE IF EXISTS " ++ t) = some (.dropTableIfExists t) ∧
  parseSql q = some (.createTableIfNotExists t)

instance (t q : String) : Decidable (WellFormed t q) := by
  unfold WellFormed
  infer_instance

/-- An empty store in which call number `n` (from 0) fails with `e`. -/
def failingAt (n : Nat) (e : DbError) : World :=
  { emptyWorld with faults := List.replicate n none ++ [some e] }

/-- A store that already holds the nine tables, with rows in `users` (two of them
`super_admin`, none named `admin`) and in `rooms`, and one idle connection whose checks are
disabled. -/
def populatedWorld : World where
  store := fun n =>
    if n = "users" then
      some { statement := tableDefinitions.users,
             rows := [[("id", .int 1), ("username", .text "root"), ("user_type", .text "super_admin")],
                      [("id", .int 2), ("username", .text "boss"), ("user_type", .text "super_admin")],
                      [("id", .int 3), ("username", .text "ann"), ("user_type", .text "guest")]],
             autoIncrement := 4 }
    else if n = "rooms" then
      some { statement := tableDefinitions.rooms,
             rows := [[("id", .int 1), ("room_number", .text "101")]],
             autoIncrement := 2 }
    else if n ∈ tableNames then
      some { statement := "", rows := [[("id", .int 7)]], autoIncrement := 8 }
    else none
  fkChecks := fun _ => false
  free := [5]
  nextConn := 6
  faults := [none, none]

/-- A store whose only table is `users`, holding one `super_admin` that is not named `admin`. -/
def rootOnlyWorld : World where
  store := fun n =>
    if n = "users" then
      some { statement := tableDefinitions.users,
             rows := [[("id", .int 1), ("username", .text "root"), ("user_type", .text "super_admin")]],
             autoIncrement := 2 }
    else none
  fkChecks := fun _ => true
  free := []
  nextConn := 0
  faults := []

/-- The modelled pool, keeping a record: every statement that arrives through `conn.query` is
noted together with the world in which it arrives.  The answers and the effects are those of
`mysqlPool`. -/
def recordingPool : Pool (World × List (String × World)) DbError where
  getConnection := fun s =>
    ((mysqlPool.getConnection s.1).1, ((mysqlPool.getConnection s.1).2, s.2))
  connQuery := fun c sql ps s =>
    ((mysqlPool.connQuery c sql ps s.1).1,
      ((mysqlPool.connQuery c sql ps s.1).2, s.2 ++ [(sql, s.1)]))
  poolQuery := fun sql s => ((mysqlPool.poolQuery sql s.1).1, ((mysqlPool.poolQuery sql s.1).2, s.2))
  release := fun c s => (mysqlPool.release c s.1, s.2)

/-- The statements `initializeDatabase` sends in its run on the empty store, in order, each
with the world in which it arrives. -/
def sentOnEmptyStore : List (String × World) :=
  (initializeDatabase recordingPool ⟨(emptyWorld, []), []⟩).2.env.2

/-- The table a statement creates, when it is a creation statement. -/
def createdTable (sql : String) : Option String :=
  match parseSql sql with
  | some (.createTableIfNotExists t) => some t
  | _ => none

/-- An empty store in which call number `n` (from 0) fails because the connection is lost; the
error says nothing about the statement. -/
def connectionLostAt (n : Nat) : World := failingAt n (.fault "PROTOCOL_CONNECTION_LOST")

/-- An empty store that rejects the creation statement of the third rebuild: the calls are one
acquisition and four queries per rebuild, so this is call number 13, counting from 0. -/
def thirdCreateFails : World := failingAt 13 (.fault "ER_PARSE_ERROR")

/-- The run on `thirdCreateFails` after the start log and the first two rebuilds. -/
def thirdRun : Run World DbError :=
  (rebuildAll mysqlPool (rebuildOrder.take 2)
    ⟨thirdCreateFails, [.consoleLog "🚀 Début initialisation DB..."]⟩).2

/-- A store whose only table is `users`, without rows. -/
def freshUsersWorld : World where
  store := fun n =>
    if n = "users" then some { statement := tableDefinitions.users, rows := [], autoIncrement := 1 }
    else none
  fkChecks := fun _ => true
  free := []
  nextConn := 0
  faults := []

/-! ## Running the functions -/

section Semantics

variable {σ ε : Type}

theorem bind_apply {α β : Type} (x : Prog σ ε α) (f : α → Prog σ ε β) (r : Run σ ε) :
    (x >>= f) r = match x r with
      | (.ok a, r1) => f a r1
      | (.error e, r1) => (.error e, r1) := rfl

theorem map_apply {α β : Type} (f : α → β) (x : Prog σ ε α) (r : Run σ ε) :
    (f <$> x) r = match x r with
      | (.ok a, r1) => (.ok (f a), r1)
      | (.error e, r1) => (.error e, r1) := by
  show Prog.bind x _ r = _
  unfold Prog.bind
  rcases x r with ⟨_ | _, _⟩ <;> rfl

theorem eq_mk_snd {α β : Type} {x : α × β} {a : α} (h : x.1 = a) : x = (a, x.2) := by
  cases x
  cases h
  rfl

theorem pure_apply {α : Type} (a : α) (r : Run σ ε) :
    (pure a : Prog σ ε α) r = (.ok a, r) := rfl

/-- Every path through `createTable`, by the answers of the pool. -/
theorem createTable_run (P : Pool σ ε) (t q : String) (r : Run σ ε) :
    createTable P t q r =
      match P.getConnection r.env with
      | (.error e, s) => (.error e, ⟨s, r.trace ++ [.acquireFailed e]⟩)
      | (.ok c, s0) =>
        match P.connQuery c "SET FOREIGN_KEY_CHECKS = 0" [] s0 with
        | (.error e, s1) => (.error e, ⟨P.release c s1, r.trace ++
            [.acquired c, .query c "SET FOREIGN_KEY_CHECKS = 0" [] false,
             .consoleError ("❌ Erreur création table " ++ t ++ ":") e, .release c]⟩)
        | (.ok _, s1) =>
          match P.connQuery c ("DROP TABLE IF EXISTS " ++ t) [] s1 with
          | (.error e, s2) => (.error e, ⟨P.release c s2, r.trace ++
              [.acquired c, .query c "SET FOREIGN_KEY_CHECKS = 0" [] true,
               .query c ("DROP TABLE IF EXISTS " ++ t) [] false,
               .consoleError ("❌ Erreur création table " ++ t ++ ":") e, .release c]⟩)
          | (.ok _, s2) =>
            match P.connQuery c q [] s2 with
            | (.error e, s3) => (.error e, ⟨P.release c s3, r.trace ++
                [.acquired c, .query c "SET FOREIGN_KEY_CHECKS = 0" [] true,
                 .query c ("DROP TABLE IF EXISTS " ++ t) [] true, .query c q [] false,
                 .consoleError ("❌ Erreur création table " ++ t ++ ":") e, .release c]⟩)
            | (.ok _, s3) =>
              match P.connQuery c "SET FOREIGN_KEY_CHECKS = 1" [] s3 with
              | (.error e, s4) => (.error e, ⟨P.release c s4, r.trace ++
                  [.acquired c, .query c "SET FOREIGN_KEY_CHECKS = 0" [] true,
                   .query c ("DROP TABLE IF EXISTS " ++ t) [] true, .query c q [] true,
                   .query c "SET FOREIGN_KEY_CHECKS = 1" [] false,
                   .consoleError ("❌ Erreur création table " ++ t ++ ":") e, .release c]⟩)
              | (.ok _, s4) => (.ok (), ⟨P.release c s4, r.trace ++
                  [.acquired c, .query c "SET FOREIGN_KEY_CHECKS = 0" [] true,
                   .query c ("DROP TABLE IF EXISTS " ++ t) [] true, .query c q [] true,
                   .query c "SET FOREIGN_KEY_CHECKS = 1" [] true,
                   .consoleLog ("✅ Table " ++ t ++ " créée"), .release c]⟩) := by
  rcases h0 : P.getConnection r.env with ⟨e | c, s0⟩
  · simp [createTable, bind_apply, getConnection, h0]
  rcases h1 : P.connQuery c "SET FOREIGN_KEY_CHECKS = 0" [] s0 with ⟨e | _, s1⟩
  · simp [createTable, bind_apply, map_apply, getConnection, h0, tryFinally, tryFinally',
      Prog.tryFinally, tryCatch, tryCatchThe, MonadExcept.tryCatch, Prog.tryCatch, connQuery, h1,
      consoleError, consoleLog, emit, release, throw, throwThe, MonadExcept.throw, Prog.throw]
  rcases h2 : P.connQuery c ("DROP TABLE IF EXISTS " ++ t) [] s1 with ⟨e | _, s2⟩
  · simp [createTable, bind_apply, map_apply, getConnection, h0, tryFinally, tryFinally',
      Prog.tryFinally, tryCatch, tryCatchThe, MonadExcept.tryCatch, Prog.tryCatch, connQuery, h1,
      h2, consoleError, consoleLog, emit, release, throw, throwThe, MonadExcept.throw, Prog.throw]
  rcases h3 : P.connQuery c q [] s2 with ⟨e | _, s3⟩
  · simp [createTable, bind_apply, map_apply, getConnection, h0, tryFinally, tryFinally',
      Prog.tryFinally, tryCatch, tryCatchThe, MonadExcept.tryCatch, Prog.tryCatch, connQuery, h1,
      h2, h3, consoleError, consoleLog, emit, release, throw, throwThe, MonadExcept.throw,
      Prog.throw]
  rcases h4 : P.connQuery c "SET FOREIGN_KEY_CHECKS = 1" [] s3 with ⟨e | _, s4⟩
  · simp [createTable, bind_apply, map_apply, getConnection, h0, tryFinally, tryFinally',
      Prog.tryFinally, tryCatch, tryCatchThe, MonadExcept.tryCatch, Prog.tryCatch, connQuery, h1,
      h2, h3, h4, consoleError, consoleLog, emit, release, throw, throwThe, MonadExcept.throw,
      Prog.throw]
  · simp [createTable, bind_apply, map_apply, getConnection, h0, tryFinally, tryFinally',
      Prog.tryFinally, tryCatch, tryCatchThe, MonadExcept.tryCatch, Prog.tryCatch, connQuery, h1,
      h2, h3, h4, consoleError, consoleLog, emit, release, throw, throwThe, MonadExcept.throw,
      Prog.throw]

/-- Every path through `seedInitialData`, by the answers of the pool. -/
theorem seedInitialData_run (P : Pool σ ε) (r : Run σ ε) :
    seedInitialData P r =
      match P.getConnection r.env with
      | (.error e, s) => (.error e, ⟨s, r.trace ++ [.acquireFailed e]⟩)
      | (.ok c, s0) =>
        match P.connQuery c selectSuperAdminSql [] s0 with
        | (.error e, s1) => (.error e, ⟨P.release c s1, r.trace ++
            [.acquired c, .query c selectSuperAdminSql [] false,
             .consoleError "Erreur initialisation données:" e, .release c]⟩)
        | (.ok rows, s1) =>
          if rows.length = 0 then
            match P.connQuery c insertAdminSql adminParams s1 with
            | (.error e, s2) => (.error e, ⟨P.release c s2, r.trace ++
                [.acquired c, .query c selectSuperAdminSql [] true,
                 .query c insertAdminSql adminParams false,
                 .consoleError "Erreur initialisation données:" e, .release c]⟩)
            | (.ok _, s2) => (.ok (), ⟨P.release c s2, r.trace ++
                [.acquired c, .query c selectSuperAdminSql [] true,
                 .query c insertAdminSql adminParams true,
                 .consoleLog "👑 Compte admin créé", .release c]⟩)
          else (.ok (), ⟨P.release c s1, r.trace ++
              [.acquired c, .query c selectSuperAdminSql [] true, .release c]⟩) := by
  rcases h0 : P.getConnection r.env with ⟨e | c, s0⟩
  · simp [seedInitialData, bind_apply, getConnection, h0]
  rcases h1 : P.connQuery c selectSuperAdminSql [] s0 with ⟨e | rows, s1⟩
  · simp [seedInitialData, bind_apply, map_apply, getConnection, h0, tryFinally, tryFinally',
      Prog.tryFinally, tryCatch, tryCatchThe, MonadExcept.tryCatch, Prog.tryCatch, connQuery, h1,
      consoleError, consoleLog, emit, release, throw, throwThe, MonadExcept.throw, Prog.throw]
  by_cases hr : rows.length = 0
  · have hr1 : rows = [] := List.length_eq_zero.mp hr
    rcases h2 : P.connQuery c insertAdminSql adminParams s1 with ⟨e | _, s2⟩
    · simp [seedInitialData, bind_apply, map_apply, getConnection, h0, tryFinally, tryFinally',
        Prog.tryFinally, tryCatch, tryCatchThe, MonadExcept.tryCatch, Prog.tryCatch, connQuery,
        h1, h2, hr1, consoleError, consoleLog, emit, release, throw, throwThe, MonadExcept.throw,
        Prog.throw]
    · simp [seedInitialData, bind_apply, map_apply, getConnection, h0, tryFinally, tryFinally',
        Prog.tryFinally, tryCatch, tryCatchThe, MonadExcept.tryCatch, Prog.tryCatch, connQuery,
        h1, h2, hr1, consoleError, consoleLog, emit, release, throw, throwThe, MonadExcept.throw,
        Prog.throw]
  · have hr1 : rows ≠ [] := fun h => hr (by simp [h])
    simp [seedInitialData, bind_apply, map_apply, pure_apply, getConnection, h0, tryFinally,
      tryFinally', Prog.tryFinally, tryCatch, tryCatchThe, MonadExcept.tryCatch, Prog.tryCatch,
      connQuery, h1, hr, hr1, consoleError, consoleLog, emit, release, throw, throwThe,
      MonadExcept.throw, Prog.throw]

/-- Every path through `checkDatabaseConnection`, by the answer of the pool. -/
theorem checkDatabaseConnection_run (P : Pool σ ε) (r : Run σ ε) :
    checkDatabaseConnection P r =
      match P.poolQuery "SELECT 1" r.env with
      | (.ok _, s) => (.ok true, ⟨s, r.trace ++ [.poolQuery "SELECT 1" true]⟩)
      | (.error e, s) => (.ok false, ⟨s, r.trace ++
          [.poolQuery "SELECT 1" false, .consoleError "Erreur connexion DB:" e]⟩) := by
  rcases h0 : P.poolQuery "SELECT 1" r.env with ⟨e | _, s0⟩
  · simp [checkDatabaseConnection, bind_apply, pure_apply, poolQuery, h0, tryCatch, tryCatchThe,
      MonadExcept.tryCatch, Prog.tryCatch, consoleError, emit]
  · simp [checkDatabaseConnection, bind_apply, pure_apply, poolQuery, h0, tryCatch, tryCatchThe,
      MonadExcept.tryCatch, Prog.tryCatch, consoleError, emit]

theorem rebuildAll_nil (P : Pool σ ε) (r : Run σ ε) : rebuildAll P [] r = (.ok (), r) := rfl

theorem rebuildAll_cons (P : Pool σ ε) (t q : String) (rest : List (String × String))
    (r : Run σ ε) :
    rebuildAll P ((t, q) :: rest) r =
      match createTable P t q r with
      | (.ok _, r1) => rebuildAll P rest r1
      | (.error e, r1) => (.error e, r1) := by
  rw [rebuildAll, bind_apply]
  rcases createTable P t q r with ⟨e | _, r1⟩ <;> rfl

theorem rebuildAll_append (P : Pool σ ε) (l1 l2 : List (String × String)) (r : Run σ ε) :
    rebuildAll P (l1 ++ l2) r =
      match rebuildAll P l1 r with
      | (.ok _, r1) => rebuildAll P l2 r1
      | (.error e, r1) => (.error e, r1) := by
  induction l1 generalizing r with
  | nil => simp [rebuildAll_nil]
  | cons hd tl ih =>
    obtain ⟨t, q⟩ := hd
    simp only [List.cons_append, rebuildAll_cons]
    rcases createTable P t q r with ⟨e | _, r1⟩
    · rfl
    · exact ih r1

/-- The function `initializeDatabase` in terms of the sequence of rebuilds. -/
theorem initializeDatabase_run (P : Pool σ ε) (r : Run σ ε) :
    initializeDatabase P r =
      match rebuildAll P rebuildOrder
          ⟨r.env, r.trace ++ [.consoleLog "🚀 Début initialisation DB..."]⟩ with
      | (.error e, r1) =>
        (.error e, ⟨r1.env, r1.trace ++ [.consoleError "💥 Erreur initialisation DB:" e]⟩)
      | (.ok _, r1) =>
        match seedInitialData P r1 with
        | (.error e, r2) =>
          (.error e, ⟨r2.env, r2.trace ++ [.consoleError "💥 Erreur initialisation DB:" e]⟩)
        | (.ok _, r2) =>
          (.ok true, ⟨r2.env, r2.trace ++ [.consoleLog "🎉 Base de données initialisée!"]⟩) := by
  simp only [initializeDatabase, rebuildOrder, rebuildAll_cons, rebuildAll_nil, bind_apply,
    pure_apply, tryCatch, tryCatchThe, MonadExcept.tryCatch, Prog.tryCatch, consoleError,
    consoleLog, emit, throw, throwThe, MonadExcept.throw, Prog.throw]
  generalize (⟨r.env, r.trace ++ [.consoleLog "🚀 Début initialisation DB..."]⟩ : Run σ ε) = r0
  generalize createTable P "users" tableDefinitions.users r0 = x0
  rcases x0 with ⟨e | _, r1⟩
  · rfl
  dsimp only
  generalize createTable P "rooms" tableDefinitions.rooms r1 = x1
  rcases x1 with ⟨e | _, r2⟩
  · rfl
  dsimp only
  generalize createTable P "housekeeping_tasks" tableDefinitions.housekeeping_tasks r2 = x2
  rcases x2 with ⟨e | _, r3⟩
  · rfl
  dsimp only
  generalize createTable P "special_requests" tableDefinitions.special_requests r3 = x3
  rcases x3 with ⟨e | _, r4⟩
  · rfl
  dsimp only
  generalize createTable P "staff" tableDefinitions.staff r4 = x4
  rcases x4 with ⟨e | _, r5⟩
  · rfl
  dsimp only
  generalize createTable P "payments" tableDefinitions.payments r5 = x5
  rcases x5 with ⟨e | _, r6⟩
  · rfl
  dsimp only
  generalize createTable P "invoices" tableDefinitions.invoices r6 = x6
  rcases x6 with ⟨e | _, r7⟩
  · rfl
  dsimp only
  generalize createTable P "tax_payments" tableDefinitions.tax_payments r7 = x7
  rcases x7 with ⟨e | _, r8⟩
  · rfl
  dsimp only
  generalize createTable P "audit_logs" tableDefinitions.audit_logs r8 = x8
  rcases x8 with ⟨e | _, r9⟩
  · rfl
  dsimp only
  generalize seedInitialData P r9 = x9
  rcases x9 with ⟨e | _, r10⟩ <;> rfl

theorem statements_append (a b : List (Event ε)) :
    statements (a ++ b) = statements a ++ statements b := by
  induction a with
  | nil => rfl
  | cons ev evs ih => cases ev <;> simp [statements, ih]

/-- A successful `createTable`: every call succeeded, in the order of the source. -/
theorem createTable_ok {P : Pool σ ε} {t q : String} {r r1 : Run σ ε} {u : Unit}
    (h : createTable P t q r = (.ok u, r1)) :
    ∃ c s0 s1 s2 s3, ∃ s4 : σ, ∃ rows1 rows2 rows3 rows4 : List Row,
      P.getConnection r.env = (.ok c, s0) ∧
      P.connQuery c "SET FOREIGN_KEY_CHECKS = 0" [] s0 = (.ok rows1, s1) ∧
      P.connQuery c ("DROP TABLE IF EXISTS " ++ t) [] s1 = (.ok rows2, s2) ∧
      P.connQuery c q [] s2 = (.ok rows3, s3) ∧
      P.connQuery c "SET FOREIGN_KEY_CHECKS = 1" [] s3 = (.ok rows4, s4) ∧
      r1 = ⟨P.release c s4, r.trace ++
        [.acquired c, .query c "SET FOREIGN_KEY_CHECKS = 0" [] true,
         .query c ("DROP TABLE IF EXISTS " ++ t) [] true, .query c q [] true,
         .query c "SET FOREIGN_KEY_CHECKS = 1" [] true,
         .consoleLog ("✅ Table " ++ t ++ " créée"), .release c]⟩ := by
  rw [createTable_run] at h
  rcases h0 : P.getConnection r.env with ⟨e | c, s0⟩
  · simp [h0] at h
  rcases h1 : P.connQuery c "SET FOREIGN_KEY_CHECKS = 0" [] s0 with ⟨e | rows1, s1⟩
  · simp [h0, h1] at h
  rcases h2 : P.connQuery c ("DROP TABLE IF EXISTS " ++ t) [] s1 with ⟨e | rows2, s2⟩
  · simp [h0, h1, h2] at h
  rcases h3 : P.connQuery c q [] s2 with ⟨e | rows3, s3⟩
  · simp [h0, h1, h2, h3] at h
  rcases h4 : P.connQuery c "SET FOREIGN_KEY_CHECKS = 1" [] s3 with ⟨e | rows4, s4⟩
  · simp [h0, h1, h2, h3, h4] at h
  · simp only [h0, h1, h2, h3, h4] at h
    exact ⟨c, s0, s1, s2, s3, s4, rows1, rows2, rows3, rows4, rfl, h1, h2, h3, h4,
      (Prod.mk.inj h).2.symm⟩

theorem createTable_ok_statements {P : Pool σ ε} {t q : String} {r r1 : Run σ ε} {u : Unit}
    (h : createTable P t q r = (.ok u, r1)) :
    statements r1.trace = statements r.trace ++ rebuildStatements t q := by
  obtain ⟨c, s0, s1, s2, s3, s4, _, _, _, _, _, _, _, _, _, rfl⟩ := createTable_ok h
  simp [statements_append, statements, rebuildStatements]

theorem rebuildAll_ok_statements {P : Pool σ ε} (l : List (String × String)) {r r1 : Run σ ε}
    {u : Unit} (h : rebuildAll P l r = (.ok u, r1)) :
    statements r1.trace =
      statements r.trace ++ sentBy l := by
  unfold sentBy
  induction l generalizing r with
  | nil =>
    rw [rebuildAll_nil] at h
    obtain rfl := (Prod.mk.inj h).2
    simp
  | cons hd tl ih =>
    obtain ⟨t, q⟩ := hd
    rw [rebuildAll_cons] at h
    rcases hc : createTable P t q r with ⟨e | v, r2⟩
    · simp [hc] at h
    · simp only [hc] at h
      rw [ih h, createTable_ok_statements hc]
      simp

/-- A sequence of rebuilds stops at the first failing one. -/
theorem rebuildAll_fails_at {P : Pool σ ε} {l : List (String × String)} {k : Nat} {t q : String}
    {r r1 r2 : Run σ ε} {e : ε} (hk : l[k]? = some (t, q))
    (hpre : rebuildAll P (l.take k) r = (.ok (), r1))
    (hf : createTable P t q r1 = (.error e, r2)) :
    rebuildAll P l r = (.error e, r2) := by
  obtain ⟨hlt, hget⟩ := List.getElem?_eq_some.mp hk
  have hsplit : l = l.take k ++ (t, q) :: l.drop (k + 1) := by
    rw [← hget, ← List.drop_eq_getElem_cons hlt, List.take_append_drop]
  rw [hsplit, rebuildAll_append, hpre]
  simp only [rebuildAll_cons, hf]

/-- When the rebuild of a table fails, `initializeDatabase` logs the cause and rejects with it. -/
theorem initializeDatabase_fails_at {P : Pool σ ε} {k : Nat} {t q : String}
    {r r1 r2 : Run σ ε} {e : ε} (hk : rebuildOrder[k]? = some (t, q))
    (hpre : rebuildAll P (rebuildOrder.take k)
      ⟨r.env, r.trace ++ [.consoleLog "🚀 Début initialisation DB..."]⟩ = (.ok (), r1))
    (hf : createTable P t q r1 = (.error e, r2)) :
    initializeDatabase P r =
      (.error e, ⟨r2.env, r2.trace ++ [.consoleError "💥 Erreur initialisation DB:" e]⟩) := by
  rw [initializeDatabase_run, rebuildAll_fails_at hk hpre hf]

end Semantics

/-! ## Properties that hold for every pool -/

section Generic

variable {σ ε : Type}

/-- C10: `checkDatabaseConnection` never throws: whatever the probe query does, the result is
a boolean, `true` exactly when `pool.query('SELECT 1')` succeeds and `false` exactly when it
fails. -/
theorem checkDatabaseConnection_never_throws (P : Pool σ ε) (r : Run σ ε) :
    ∃ b : Bool, (checkDatabaseConnection P r).1 = .ok b ∧
      (b = true ↔ ∃ rows, (P.poolQuery "SELECT 1" r.env).1 = .ok rows) ∧
      (b = false ↔ ∃ e, (P.poolQuery "SELECT 1" r.env).1 = .error e) := by
  rw [checkDatabaseConnection_run]
  rcases P.poolQuery "SELECT 1" r.env with ⟨e | rows, s⟩
  · exact ⟨false, rfl, by simp, by simp⟩
  · exact ⟨true, rfl, by simp, by simp⟩

/-- C4: once `createTable` or `seedInitialData` has its connection, the connection is released
exactly once, as the last thing the call does, whatever the queries answer; the final state of
the pool is the one `conn.release()` returns. -/
theorem connection_released_exactly_once (P : Pool σ ε) (t q : String) (r : Run σ ε)
    (c : ConnId) (s0 : σ) (h : P.getConnection r.env = (.ok c, s0)) :
    (ReleasedOnce c r.trace (createTable P t q r).2.trace ∧
      ∃ s, (createTable P t q r).2.env = P.release c s) ∧
    (ReleasedOnce c r.trace (seedInitialData P r).2.trace ∧
      ∃ s, (seedInitialData P r).2.env = P.release c s) := by
  have fin : ∀ (s : σ) (evs : List (Event ε)),
      evs.head? = some (.acquired c) → evs.getLast? = some (.release c) →
      evs.countP Event.isRelease = 1 → evs.countP Event.isAcquire = 1 →
      ReleasedOnce c r.trace (⟨P.release c s, r.trace ++ evs⟩ : Run σ ε).trace ∧
        ∃ s1, (⟨P.release c s, r.trace ++ evs⟩ : Run σ ε).env = P.release c s1 :=
    fun s evs h1 h2 h3 h4 => ⟨⟨evs, rfl, h1, h2, h3, h4⟩, s, rfl⟩
  constructor
  · rw [createTable_run, h]
    dsimp only
    rcases h1 : P.connQuery c "SET FOREIGN_KEY_CHECKS = 0" [] s0 with ⟨e | _, s1⟩
    · apply fin <;> simp [Event.isRelease, Event.isAcquire]
    dsimp only
    rcases h2 : P.connQuery c ("DROP TABLE IF EXISTS " ++ t) [] s1 with ⟨e | _, s2⟩
    · apply fin <;> simp [Event.isRelease, Event.isAcquire]
    dsimp only
    rcases h3 : P.connQuery c q [] s2 with ⟨e | _, s3⟩
    · apply fin <;> simp [Event.isRelease, Event.isAcquire]
    dsimp only
    rcases h4 : P.connQuery c "SET FOREIGN_KEY_CHECKS = 1" [] s3 with ⟨e | _, s4⟩
    · apply fin <;> simp [Event.isRelease, Event.isAcquire]
    · apply fin <;> simp [Event.isRelease, Event.isAcquire]
  · rw [seedInitialData_run, h]
    dsimp only
    rcases h1 : P.connQuery c selectSuperAdminSql [] s0 with ⟨e | rows, s1⟩
    · apply fin <;> simp [Event.isRelease, Event.isAcquire]
    dsimp only
    by_cases hr : rows.length = 0
    · simp only [hr, if_true]
      rcases h2 : P.connQuery c insertAdminSql adminParams s1 with ⟨e | _, s2⟩
      · apply fin <;> simp [Event.isRelease, Event.isAcquire]
      · apply fin <;> simp [Event.isRelease, Event.isAcquire]
    · simp only [hr, if_false]
      apply fin <;> simp [Event.isRelease, Event.isAcquire]

theorem seedInitialData_ok_statements {P : Pool σ ε} {r r1 : Run σ ε} {u : Unit}
    (h : seedInitialData P r = (.ok u, r1)) :
    statements r1.trace = statements r.trace ++ [selectSuperAdminSql] ∨
    statements r1.trace = statements r.trace ++ [selectSuperAdminSql, insertAdminSql] := by
  rw [seedInitialData_run] at h
  rcases h0 : P.getConnection r.env with ⟨e | c, s0⟩
  · simp [h0] at h
  rcases h1 : P.connQuery c selectSuperAdminSql [] s0 with ⟨e | rows, s1⟩
  · simp [h0, h1] at h
  by_cases hr : rows.length = 0
  · rcases h2 : P.connQuery c insertAdminSql adminParams s1 with ⟨e | _, s2⟩
    · simp [h0, h1, h2, hr] at h
    · simp only [h0, h1, h2, hr, if_true] at h
      obtain rfl := (Prod.mk.inj h).2
      right
      simp [statements_append, statements]
  · simp only [h0, h1, hr, if_false] at h
    obtain rfl := (Prod.mk.inj h).2
    left
    simp [statements_append, statements]

/-- C7: when `initializeDatabase` resolves (no call failed), the statements it sent are, in
this order, those of the nine rebuilds `users`, `rooms`, `housekeeping_tasks`,
`special_requests`, `staff`, `payments`, `invoices`, `tax_payments`, `audit_logs`, each once and
each with its own registry statement, followed by those of one seeding step (the existence
check, and the insertion when the check found nothing). -/
theorem initializeDatabase_order (P : Pool σ ε) (r : Run σ ε) (b : Bool)
    (h : (initializeDatabase P r).1 = .ok b) :
    b = true ∧ ∃ seeding,
      (seeding = [selectSuperAdminSql] ∨ seeding = [selectSuperAdminSql, insertAdminSql]) ∧
      statements (initializeDatabase P r).2.trace = statements r.trace ++
        (rebuildStatements "users" tableDefinitions.users ++
         rebuildStatements "rooms" tableDefinitions.rooms ++
         rebuildStatements "housekeeping_tasks" tableDefinitions.housekeeping_tasks ++
         rebuildStatements "special_requests" tableDefinitions.special_requests ++
         rebuildStatements "staff" tableDefinitions.staff ++
         rebuildStatements "payments" tableDefinitions.payments ++
         rebuildStatements "invoices" tableDefinitions.invoices ++
         rebuildStatements "tax_payments" tableDefinitions.tax_payments ++
         rebuildStatements "audit_logs" tableDefinitions.audit_logs ++ seeding) := by
  rw [initializeDatabase_run] at h ⊢
  rcases hr : rebuildAll P rebuildOrder
      ⟨r.env, r.trace ++ [.consoleLog "🚀 Début initialisation DB..."]⟩ with ⟨e | u, r1⟩
  · simp [hr] at h
  have hst := rebuildAll_ok_statements rebuildOrder hr
  rcases hs : seedInitialData P r1 with ⟨e | v, r2⟩
  · simp [hr, hs] at h
  have hseed := seedInitialData_ok_statements hs
  simp only [hr, hs] at h ⊢
  refine ⟨(Except.ok.inj h).symm, ?_⟩
  rcases hseed with h2 | h2
  · refine ⟨_, Or.inl rfl, ?_⟩
    simp [statements_append, statements, h2, hst, rebuildOrder, sentBy]
  · refine ⟨_, Or.inr rfl, ?_⟩
    simp [statements_append, statements, h2, hst, rebuildOrder, sentBy]

/-- C9, as the code has it: when the DROP or the CREATE statement fails, `createTable` logs the
table name together with the cause and rethrows the cause itself, unchanged; when this happens
in a rebuild of `initializeDatabase`, `initializeDatabase` logs and rejects with that same
cause. -/
theorem createTable_rethrows_cause (P : Pool σ ε) (t q : String) (r : Run σ ε) (c : ConnId)
    (s0 s1 : σ) (rows1 : List Row) (e : ε)
    (hc : P.getConnection r.env = (.ok c, s0))
    (h0 : P.connQuery c "SET FOREIGN_KEY_CHECKS = 0" [] s0 = (.ok rows1, s1))
    (hfail : (∃ s2, P.connQuery c ("DROP TABLE IF EXISTS " ++ t) [] s1 = (.error e, s2)) ∨
      (∃ rows2 s2 s3, P.connQuery c ("DROP TABLE IF EXISTS " ++ t) [] s1 = (.ok rows2, s2) ∧
        P.connQuery c q [] s2 = (.error e, s3))) :
    (createTable P t q r).1 = .error e ∧
    .consoleError ("❌ Erreur création table " ++ t ++ ":") e ∈ (createTable P t q r).2.trace ∧
    ∀ (r0 : Run σ ε) (k : Nat), rebuildOrder[k]? = some (t, q) →
      rebuildAll P (rebuildOrder.take k)
        ⟨r0.env, r0.trace ++ [.consoleLog "🚀 Début initialisation DB..."]⟩ = (.ok (), r) →
      (initializeDatabase P r0).1 = .error e ∧
      .consoleError "💥 Erreur initialisation DB:" e ∈ (initializeDatabase P r0).2.trace := by
  have key : (createTable P t q r).1 = .error e ∧
      .consoleError ("❌ Erreur création table " ++ t ++ ":") e ∈
        (createTable P t q r).2.trace := by
    rw [createTable_run, hc]
    dsimp only
    rw [h0]
    dsimp only
    rcases hfail with ⟨s2, h2⟩ | ⟨rows2, s2, s3, h2, h3⟩
    · rw [h2]
      simp
    · rw [h2]
      dsimp only
      rw [h3]
      simp
  refine ⟨key.1, key.2, ?_⟩
  intro r0 k hk hpre
  have hf : createTable P t q r = (.error e, (createTable P t q r).2) := by
    rw [← key.1]
  rw [initializeDatabase_fails_at hk hpre hf]
  simp

end Generic

/-! ## Properties of the runs against the modelled store -/

section Store

set_option maxRecDepth 100000

theorem parseSql_disable :
    parseSql "SET FOREIGN_KEY_CHECKS = 0" = some (.setForeignKeyChecks false) := by decide

theorem parseSql_enable :
    parseSql "SET FOREIGN_KEY_CHECKS = 1" = some (.setForeignKeyChecks true) := by decide

theorem parseSql_select : parseSql selectSuperAdminSql = some .selectSuperAdmin := by decide

theorem parseSql_insert : parseSql insertAdminSql = some .insertUser := by decide

theorem rebuildOrder_wellFormed : ∀ tq ∈ rebuildOrder, WellFormed tq.1 tq.2 := by decide

theorem tableNames_nodup : tableNames.Nodup := by decide

theorem nextFault_store (w : World) : (nextFault w).2.store = w.store := by
  unfold nextFault
  cases w.faults <;> rfl

theorem getConnection_store (w : World) : (World.getConnection w).2.store = w.store := by
  unfold World.getConnection
  have h := nextFault_store w
  rcases hnf : nextFault w with ⟨_ | e, w1⟩
  · rw [hnf] at h
    dsimp only at h ⊢
    cases hf : w1.free <;> simp [h]
  · rw [hnf] at h
    exact h

theorem release_store (c : ConnId) (w : World) : (World.release c w).store = w.store := by
  unfold World.release
  split <;> rfl

/-- A statement changes at most the table it names. -/
theorem execStmt_store (c : ConnId) (sql : String) (ps : List String) (w : World) (n : String)
    (hp : ∀ st, parseSql sql = some st → st.target ≠ some n) :
    (execStmt c sql ps w).2.store n = w.store n := by
  unfold execStmt
  rcases hq : parseSql sql with _ | st
  · rfl
  · have ht := hp st hq
    cases st with
    | setForeignKeyChecks b => rfl
    | dropTableIfExists t =>
      have : n ≠ t := fun h => ht (by simp [Stmt.target, h])
      simp [setTable, this]
    | createTableIfNotExists t =>
      have : n ≠ t := fun h => ht (by simp [Stmt.target, h])
      dsimp only
      cases w.store t <;> simp [setTable, this]
    | selectSuperAdmin =>
      dsimp only
      cases w.store "users" <;> rfl
    | insertUser =>
      have : n ≠ "users" := fun h => ht (by simp [Stmt.target, h])
      dsimp only
      cases w.store "users" with
      | none => rfl
      | some tb =>
        dsimp only
        split <;> simp [setTable, this]
    | select1 => rfl

/-- A query changes at most the table its statement names. -/
theorem connQuery_store {c : ConnId} {sql : String} {ps : List String} {w w1 : World}
    {res : Except DbError (List Row)} (h : mysqlPool.connQuery c sql ps w = (res, w1))
    (n : String) (hp : ∀ st, parseSql sql = some st → st.target ≠ some n) :
    w1.store n = w.store n := by
  have h1 : World.connQuery c sql ps w = (res, w1) := h
  unfold World.connQuery at h1
  have hs := nextFault_store w
  rcases hnf : nextFault w with ⟨_ | e, w2⟩
  · rw [hnf] at hs h1
    dsimp only at hs h1
    have := execStmt_store c sql ps w2 n hp
    rw [h1] at this
    rw [this, hs]
  · rw [hnf] at hs h1
    dsimp only at hs h1
    rw [← (Prod.mk.inj h1).2]
    exact congrFun hs n

theorem acquire_store {w w1 : World} {res : Except DbError ConnId}
    (h : mysqlPool.getConnection w = (res, w1)) : w1.store = w.store := by
  have h1 : World.getConnection w = (res, w1) := h
  have := getConnection_store w
  rw [h1] at this
  exact this

theorem mysql_release_store (c : ConnId) (w : World) :
    (mysqlPool.release c w).store = w.store := release_store c w

theorem target_disable (n : String) :
    ∀ st, parseSql "SET FOREIGN_KEY_CHECKS = 0" = some st → st.target ≠ some n := by
  intro st h
  rw [parseSql_disable] at h
  obtain rfl := Option.some.inj h
  simp [Stmt.target]

theorem target_enable (n : String) :
    ∀ st, parseSql "SET FOREIGN_KEY_CHECKS = 1" = some st → st.target ≠ some n := by
  intro st h
  rw [parseSql_enable] at h
  obtain rfl := Option.some.inj h
  simp [Stmt.target]

theorem target_select (n : String) :
    ∀ st, parseSql selectSuperAdminSql = some st → st.target ≠ some n := by
  intro st h
  rw [parseSql_select] at h
  obtain rfl := Option.some.inj h
  simp [Stmt.target]

theorem target_of_parse {sql : String} {st0 : Stmt} {t n : String} (hp : parseSql sql = some st0)
    (ht : st0.target = some t) (hn : n ≠ t) :
    ∀ st, parseSql sql = some st → st.target ≠ some n := by
  intro st h
  rw [hp] at h
  obtain rfl := Option.some.inj h
  rw [ht]
  exact fun h2 => hn (Option.some.inj h2).symm

/-- Whatever happens, `createTable` leaves every other table as it was. -/
theorem createTable_store_frame {t q : String} (hw : WellFormed t q) (r : Run World DbError)
    {n : String} (hn : n ≠ t) :
    (createTable mysqlPool t q r).2.env.store n = r.env.store n := by
  have hdrop := target_of_parse hw.1 rfl hn
  have hcreate := target_of_parse hw.2 rfl hn
  rw [createTable_run]
  rcases h0 : mysqlPool.getConnection r.env with ⟨e | c, s0⟩
  · exact congrFun (acquire_store h0) n
  have e0 := congrFun (acquire_store h0) n
  dsimp only
  rcases h1 : mysqlPool.connQuery c "SET FOREIGN_KEY_CHECKS = 0" [] s0 with ⟨e | _, s1⟩
  · have e1 := connQuery_store h1 n (target_disable n)
    simp only [mysql_release_store, e1, e0]
  have e1 := connQuery_store h1 n (target_disable n)
  dsimp only
  rcases h2 : mysqlPool.connQuery c ("DROP TABLE IF EXISTS " ++ t) [] s1 with ⟨e | _, s2⟩
  · have e2 := connQuery_store h2 n hdrop
    simp only [mysql_release_store, e2, e1, e0]
  have e2 := connQuery_store h2 n hdrop
  dsimp only
  rcases h3 : mysqlPool.connQuery c q [] s2 with ⟨e | _, s3⟩
  · have e3 := connQuery_store h3 n hcreate
    simp only [mysql_release_store, e3, e2, e1, e0]
  have e3 := connQuery_store h3 n hcreate
  dsimp only
  rcases h4 : mysqlPool.connQuery c "SET FOREIGN_KEY_CHECKS = 1" [] s3 with ⟨e | _, s4⟩
  · have e4 := connQuery_store h4 n (target_enable n)
    simp only [mysql_release_store, e4, e3, e2, e1, e0]
  · have e4 := connQuery_store h4 n (target_enable n)
    simp only [mysql_release_store, e4, e3, e2, e1, e0]

/-- Whatever happens, a sequence of rebuilds leaves the tables it does not name as they were. -/
theorem rebuildAll_store_frame (l : List (String × String))
    (hw : ∀ tq ∈ l, WellFormed tq.1 tq.2) (r : Run World DbError) {n : String}
    (hn : n ∉ l.map Prod.fst) :
    (rebuildAll mysqlPool l r).2.env.store n = r.env.store n := by
  induction l generalizing r with
  | nil => rfl
  | cons hd tl ih =>
    obtain ⟨t, q⟩ := hd
    have hnt : n ≠ t := fun h => hn (by simp [h])
    have hntl : n ∉ tl.map Prod.fst := fun h => hn (by simp [List.mem_map] at h ⊢; exact Or.inr h)
    have hf := createTable_store_frame (hw (t, q) (by simp)) r hnt
    rw [rebuildAll_cons]
    rcases hc : createTable mysqlPool t q r with ⟨e | _, r1⟩
    · rw [hc] at hf
      exact hf
    · rw [hc] at hf
      dsimp only
      rw [ih (fun tq h => hw tq (List.mem_cons_of_mem _ h)) r1 hntl, hf]

/-- A query that succeeds ran its statement, after the scheduled outcome was taken. -/
theorem connQuery_ok {c : ConnId} {sql : String} {ps : List String} {w w1 : World}
    {rows : List Row} (h : mysqlPool.connQuery c sql ps w = (.ok rows, w1)) :
    execStmt c sql ps (nextFault w).2 = (.ok rows, w1) := by
  have h1 : World.connQuery c sql ps w = (.ok rows, w1) := h
  unfold World.connQuery at h1
  rcases hnf : nextFault w with ⟨_ | e, w2⟩
  · rw [hnf] at h1
    exact h1
  · rw [hnf] at h1
    simp at h1

theorem connQuery_ok_drop {c : ConnId} {sql t : String} {ps : List String} {w w1 : World}
    {rows : List Row} (h : mysqlPool.connQuery c sql ps w = (.ok rows, w1))
    (hp : parseSql sql = some (.dropTableIfExists t)) : w1.store t = none := by
  have h1 := connQuery_ok h
  simp only [execStmt, hp] at h1
  rw [← (Prod.mk.inj h1).2]
  simp [setTable]

theorem connQuery_ok_create {c : ConnId} {sql t : String} {ps : List String} {w w1 : World}
    {rows : List Row} (h : mysqlPool.connQuery c sql ps w = (.ok rows, w1))
    (hp : parseSql sql = some (.createTableIfNotExists t)) (hn : w.store t = none) :
    w1.store t = some { statement := sql, rows := [], autoIncrement := 1 } := by
  have h1 := connQuery_ok h
  have hs : (nextFault w).2.store t = none := by rw [nextFault_store, hn]
  simp only [execStmt, hp, hs] at h1
  rw [← (Prod.mk.inj h1).2]
  simp [setTable]

/-- A successful `createTable` leaves the table fresh: created by `q`, without rows. -/
theorem createTable_ok_store {t q : String} (hw : WellFormed t q) {r r1 : Run World DbError}
    {u : Unit} (h : createTable mysqlPool t q r = (.ok u, r1)) :
    r1.env.store t = some { statement := q, rows := [], autoIncrement := 1 } := by
  obtain ⟨c, s0, s1, s2, s3, s4, _, _, _, _, _, _, h2, h3, h4, rfl⟩ := createTable_ok h
  have e2 := connQuery_ok_drop h2 hw.1
  have e3 := connQuery_ok_create h3 hw.2 e2
  have e4 := connQuery_store h4 t (target_enable t)
  simp only [mysql_release_store, e4, e3]

/-- After a successful sequence of rebuilds of distinct tables, each of them is fresh. -/
theorem rebuildAll_ok_store (l : List (String × String))
    (hw : ∀ tq ∈ l, WellFormed tq.1 tq.2) (hd : (l.map Prod.fst).Nodup)
    {r r1 : Run World DbError} {u : Unit} (h : rebuildAll mysqlPool l r = (.ok u, r1)) :
    ∀ tq ∈ l, r1.env.store tq.1 = some { statement := tq.2, rows := [], autoIncrement := 1 } := by
  induction l generalizing r with
  | nil => simp
  | cons hd1 tl ih =>
    obtain ⟨t, q⟩ := hd1
    rw [rebuildAll_cons] at h
    rw [List.map_cons, List.nodup_cons] at hd
    rcases hc : createTable mysqlPool t q r with ⟨e | v, r2⟩
    · simp [hc] at h
    · simp only [hc] at h
      have hwt := fun tq hm => hw tq (List.mem_cons_of_mem _ hm)
      intro tq hm
      rcases List.mem_cons.mp hm with rfl | hm
      · have hf := rebuildAll_store_frame tl hwt r2 hd.1
        rw [h] at hf
        rw [hf]
        exact createTable_ok_store (hw _ (by simp)) hc
      · exact ih hwt hd.2 h tq hm

theorem isSuperAdmin_adminRow (id : Nat) : isSuperAdmin (adminRow id) = true := rfl

theorem adminRow_username (id : Nat) :
    (adminRow id).lookup "username" = some (.text "admin") := rfl

theorem adminRow_user_type (id : Nat) :
    (adminRow id).lookup "user_type" = some (.text "super_admin") := rfl

/-- The existence check succeeds only on an existing `users`; it changes nothing and finds a
row exactly when some row is a `super_admin`. -/
theorem connQuery_ok_select {c : ConnId} {ps : List String} {w w1 : World} {rows : List Row}
    (h : mysqlPool.connQuery c selectSuperAdminSql ps w = (.ok rows, w1)) :
    w1.store = w.store ∧ ∃ tb, w.store "users" = some tb ∧
      (rows.length = 0 ↔ tb.rows.filter isSuperAdmin = []) := by
  refine ⟨funext fun n => connQuery_store h n (target_select n), ?_⟩
  have h1 := connQuery_ok h
  have hs := nextFault_store w
  simp only [execStmt, parseSql_select] at h1
  rw [← hs]
  rcases hu : (nextFault w).2.store "users" with _ | tb
  · simp [hu] at h1
  · simp only [hu] at h1
    refine ⟨tb, rfl, ?_⟩
    rw [← (Prod.mk.inj h1).1 |> Except.ok.inj]
    cases tb.rows.filter isSuperAdmin <;> simp

/-- The insertion succeeds only on an existing `users`, to which it adds the row `adminRow`. -/
theorem connQuery_ok_insert {c : ConnId} {w w1 : World} {rows : List Row}
    (h : mysqlPool.connQuery c insertAdminSql adminParams w = (.ok rows, w1)) :
    ∃ tb, w.store "users" = some tb ∧
      w1.store = setTable w.store "users" (some { tb with
        rows := tb.rows ++ [adminRow tb.autoIncrement],
        autoIncrement := tb.autoIncrement + 1 }) := by
  have h1 := connQuery_ok h
  have hs := nextFault_store w
  simp only [execStmt, parseSql_insert] at h1
  rw [← hs]
  rcases hu : (nextFault w).2.store "users" with _ | tb
  · simp [hu] at h1
  · simp only [hu] at h1
    have hlen : adminParams.length = insertColumns.length := rfl
    simp only [hlen, if_true] at h1
    refine ⟨tb, rfl, ?_⟩
    rw [← (Prod.mk.inj h1).2]
    rfl

/-- The store after a successful `seedInitialData`. -/
theorem seedInitialData_ok_store {r r1 : Run World DbError} {u : Unit}
    (h : seedInitialData mysqlPool r = (.ok u, r1)) :
    ∃ tb, r.env.store "users" = some tb ∧
      r1.env.store =
        if tb.rows.filter isSuperAdmin = [] then
          setTable r.env.store "users" (some { tb with
            rows := tb.rows ++ [adminRow tb.autoIncrement],
            autoIncrement := tb.autoIncrement + 1 })
        else r.env.store := by
  rw [seedInitialData_run] at h
  rcases h0 : mysqlPool.getConnection r.env with ⟨e | c, s0⟩
  · simp [h0] at h
  have e0 := acquire_store h0
  rcases h1 : mysqlPool.connQuery c selectSuperAdminSql [] s0 with ⟨e | rows, s1⟩
  · simp [h0, h1] at h
  obtain ⟨e1, tb, hu, hrows⟩ := connQuery_ok_select h1
  rw [e0] at hu e1
  refine ⟨tb, hu, ?_⟩
  by_cases hr : rows.length = 0
  · rcases h2 : mysqlPool.connQuery c insertAdminSql adminParams s1 with ⟨e | _, s2⟩
    · simp [h0, h1, h2, hr] at h
    · simp only [h0, h1, h2, hr, if_true] at h
      obtain rfl := (Prod.mk.inj h).2
      obtain ⟨tb2, hu2, e2⟩ := connQuery_ok_insert h2
      rw [e1] at hu2 e2
      rw [hu] at hu2
      obtain rfl := Option.some.inj hu2
      simp only [mysql_release_store, e2, hrows.mp hr, if_true]
  · simp only [h0, h1, hr, if_false] at h
    obtain rfl := (Prod.mk.inj h).2
    have : ¬ tb.rows.filter isSuperAdmin = [] := fun h2 => hr (hrows.mpr h2)
    simp only [mysql_release_store, e1, this, if_false]

/-- A rebuild is not told apart from a later one by accident: no statement of the first
`k + 1` rebuilds drops or creates a later table, and no later table has the name of an earlier
one. -/
theorem later_tables_apart : ∀ k < 9, ∀ tq ∈ rebuildOrder.drop (k + 1),
    ("DROP TABLE IF EXISTS " ++ tq.1) ∉ sentBy (rebuildOrder.take (k + 1)) ∧
    tq.2 ∉ sentBy (rebuildOrder.take (k + 1)) ∧
    tq.1 ∉ (rebuildOrder.take (k + 1)).map Prod.fst := by
  decide

theorem seeding_apart :
    selectSuperAdminSql ∉ sentBy rebuildOrder ∧ insertAdminSql ∉ sentBy rebuildOrder := by
  decide

/-- Whatever happens, `createTable` sends no statement other than its own four. -/
theorem createTable_statements {σ ε : Type} (P : Pool σ ε) (t q : String) (r : Run σ ε) :
    ∀ s ∈ statements (createTable P t q r).2.trace,
      s ∈ statements r.trace ∨ s ∈ rebuildStatements t q := by
  rw [createTable_run]
  rcases P.getConnection r.env with ⟨e | c, s0⟩
  · simp only [statements_append, statements, rebuildStatements]
    intro s hs
    simp only [List.mem_append, List.mem_cons, List.mem_singleton, List.not_mem_nil,
      or_false, List.append_nil] at hs ⊢
    tauto
  dsimp only
  rcases P.connQuery c "SET FOREIGN_KEY_CHECKS = 0" [] s0 with ⟨e | _, s1⟩
  · simp only [statements_append, statements, rebuildStatements]
    intro s hs
    simp only [List.mem_append, List.mem_cons, List.mem_singleton, List.not_mem_nil,
      or_false, List.append_nil] at hs ⊢
    tauto
  dsimp only
  rcases P.connQuery c ("DROP TABLE IF EXISTS " ++ t) [] s1 with ⟨e | _, s2⟩
  · simp only [statements_append, statements, rebuildStatements]
    intro s hs
    simp only [List.mem_append, List.mem_cons, List.mem_singleton, List.not_mem_nil,
      or_false, List.append_nil] at hs ⊢
    tauto
  dsimp only
  rcases P.connQuery c q [] s2 with ⟨e | _, s3⟩
  · simp only [statements_append, statements, rebuildStatements]
    intro s hs
    simp only [List.mem_append, List.mem_cons, List.mem_singleton, List.not_mem_nil,
      or_false, List.append_nil] at hs ⊢
    tauto
  dsimp only
  rcases P.connQuery c "SET FOREIGN_KEY_CHECKS = 1" [] s3 with ⟨e | _, s4⟩
  · simp only [statements_append, statements, rebuildStatements]
    intro s hs
    simp only [List.mem_append, List.mem_cons, List.mem_singleton, List.not_mem_nil,
      or_false, List.append_nil] at hs ⊢
    tauto
  · simp only [statements_append, statements, rebuildStatements]
    intro s hs
    simp only [List.mem_append, List.mem_cons, List.mem_singleton, List.not_mem_nil,
      or_false, List.append_nil] at hs ⊢
    tauto

theorem sentBy_append (l1 l2 : List (String × String)) :
    sentBy (l1 ++ l2) = sentBy l1 ++ sentBy l2 := by
  simp [sentBy]

theorem sentBy_take_subset (k : Nat) : ∀ s ∈ sentBy (rebuildOrder.take k), s ∈ sentBy rebuildOrder := by
  intro s hs
  rw [← List.take_append_drop k rebuildOrder, sentBy_append]
  exact List.mem_append_left _ hs

/-- C2: when the rebuild of the table at position `k` fails (the rebuilds before it having
succeeded), `initializeDatabase` rejects with the cause; nothing happens after the failing
rebuild except the error log; the statements sent are among those of the rebuilds up to `k`,
so no table after `k` is dropped or created and the seeding step sends nothing; and every table
after `k` holds what it held before the call. -/
theorem initializeDatabase_stops_at_failure (w : World) (k : Nat) (t q : String)
    (r1 r2 : Run World DbError) (e : DbError)
    (hk : rebuildOrder[k]? = some (t, q))
    (hpre : rebuildAll mysqlPool (rebuildOrder.take k)
      ⟨w, [.consoleLog "🚀 Début initialisation DB..."]⟩ = (.ok (), r1))
    (hf : createTable mysqlPool t q r1 = (.error e, r2)) :
    (initializeDatabase mysqlPool (start w)).1 = .error e ∧
    (initializeDatabase mysqlPool (start w)).2.env = r2.env ∧
    (initializeDatabase mysqlPool (start w)).2.trace =
      r2.trace ++ [.consoleError "💥 Erreur initialisation DB:" e] ∧
    (∀ s ∈ statements (initializeDatabase mysqlPool (start w)).2.trace,
      s ∈ sentBy (rebuildOrder.take (k + 1))) ∧
    selectSuperAdminSql ∉ statements (initializeDatabase mysqlPool (start w)).2.trace ∧
    insertAdminSql ∉ statements (initializeDatabase mysqlPool (start w)).2.trace ∧
    ∀ tq ∈ rebuildOrder.drop (k + 1),
      ("DROP TABLE IF EXISTS " ++ tq.1) ∉
        statements (initializeDatabase mysqlPool (start w)).2.trace ∧
      tq.2 ∉ statements (initializeDatabase mysqlPool (start w)).2.trace ∧
      (initializeDatabase mysqlPool (start w)).2.env.store tq.1 = w.store tq.1 := by
  obtain ⟨hlt, hget⟩ := List.getElem?_eq_some.mp hk
  have hk9 : k < 9 := hlt
  have htake : rebuildOrder.take (k + 1) = rebuildOrder.take k ++ [(t, q)] := by
    rw [List.take_succ, hk]
    rfl
  have hrun := initializeDatabase_fails_at (r := start w) hk hpre hf
  have hsent : ∀ s ∈ statements (initializeDatabase mysqlPool (start w)).2.trace,
      s ∈ sentBy (rebuildOrder.take (k + 1)) := by
    intro s hs
    rw [hrun] at hs
    simp only [statements_append, statements, List.append_nil] at hs
    have h2 := createTable_statements mysqlPool t q r1 s (by rw [hf]; exact hs)
    rw [htake, sentBy_append]
    rcases h2 with h2 | h2
    · rw [rebuildAll_ok_statements _ hpre] at h2
      simp only [statements, List.nil_append] at h2
      exact List.mem_append_left _ h2
    · exact List.mem_append_right _ (by simpa [sentBy] using h2)
  have hmemtq : (t, q) ∈ rebuildOrder := hget ▸ List.getElem_mem hlt
  refine ⟨by rw [hrun], by rw [hrun], by rw [hrun], hsent, ?_, ?_, ?_⟩
  · exact fun h => seeding_apart.1 (sentBy_take_subset _ _ (hsent _ h))
  · exact fun h => seeding_apart.2 (sentBy_take_subset _ _ (hsent _ h))
  · intro tq htq
    obtain ⟨hA, hB, hC⟩ := later_tables_apart k hk9 tq htq
    refine ⟨fun h => hA (hsent _ h), fun h => hB (hsent _ h), ?_⟩
    rw [hrun]
    dsimp only
    have hne : tq.1 ≠ t := fun h => hC (by rw [htake]; simp [← h])
    have hnotin : tq.1 ∉ (rebuildOrder.take k).map Prod.fst := fun h =>
      hC (by rw [htake, List.map_append]; exact List.mem_append_left _ h)
    have h1 := createTable_store_frame (rebuildOrder_wellFormed _ hmemtq) r1 hne
    rw [hf] at h1
    have h2 := rebuildAll_store_frame (rebuildOrder.take k)
      (fun x hx => rebuildOrder_wellFormed x (List.mem_of_mem_take hx))
      ⟨w, [.consoleLog "🚀 Début initialisation DB..."]⟩ hnotin
    rw [hpre] at h2
    rw [h1, h2]

/-- C3: from any store from which `initializeDatabase` resolves (whatever its tables, rows and
`super_admin` users were), the result holds the nine tables, the eight other than `users` are
empty, and `users` holds exactly one row, with `user_type` `super_admin` and `username`
`admin`. -/
theorem initializeDatabase_resets_store (r : Run World DbError) (b : Bool)
    (h : (initializeDatabase mysqlPool r).1 = .ok b) :
    (∀ t ∈ ["rooms", "housekeeping_tasks", "special_requests", "staff", "payments", "invoices",
        "tax_payments", "audit_logs"],
      ∃ tb, (initializeDatabase mysqlPool r).2.env.store t = some tb ∧ tb.rows = []) ∧
    ∃ tb row, (initializeDatabase mysqlPool r).2.env.store "users" = some tb ∧
      tb.rows = [row] ∧ row.lookup "user_type" = some (.text "super_admin") ∧
      row.lookup "username" = some (.text "admin") := by
  rw [initializeDatabase_run] at h ⊢
  rcases hr : rebuildAll mysqlPool rebuildOrder
      ⟨r.env, r.trace ++ [.consoleLog "🚀 Début initialisation DB..."]⟩ with ⟨e | u, r1⟩
  · simp [hr] at h
  have hst := rebuildAll_ok_store rebuildOrder rebuildOrder_wellFormed tableNames_nodup hr
  rcases hs : seedInitialData mysqlPool r1 with ⟨e | v, r2⟩
  · simp [hr, hs] at h
  obtain ⟨tb, hu, hseed⟩ := seedInitialData_ok_store hs
  have husers := hst ("users", tableDefinitions.users) (by simp [rebuildOrder])
  dsimp only at husers ⊢
  rw [husers] at hu
  obtain rfl := Option.some.inj hu
  simp only [List.filter_nil, if_true] at hseed
  simp only [hr, hs]
  constructor
  · intro t ht
    have hne : t ≠ "users" := by
      intro h2
      subst h2
      revert ht
      decide
    have hmem : ∃ q, (t, q) ∈ rebuildOrder := by
      simp only [List.mem_cons, List.mem_singleton, List.not_mem_nil, or_false] at ht
      rcases ht with rfl | rfl | rfl | rfl | rfl | rfl | rfl | rfl
      · exact ⟨tableDefinitions.rooms, by simp [rebuildOrder]⟩
      · exact ⟨tableDefinitions.housekeeping_tasks, by simp [rebuildOrder]⟩
      · exact ⟨tableDefinitions.special_requests, by simp [rebuildOrder]⟩
      · exact ⟨tableDefinitions.staff, by simp [rebuildOrder]⟩
      · exact ⟨tableDefinitions.payments, by simp [rebuildOrder]⟩
      · exact ⟨tableDefinitions.invoices, by simp [rebuildOrder]⟩
      · exact ⟨tableDefinitions.tax_payments, by simp [rebuildOrder]⟩
      · exact ⟨tableDefinitions.audit_logs, by simp [rebuildOrder]⟩
    obtain ⟨q, hq⟩ := hmem
    refine ⟨{ statement := q, rows := [], autoIncrement := 1 }, ?_, rfl⟩
    rw [hseed]
    simp only [setTable, hne, if_false]
    exact hst (t, q) hq
  · refine ⟨{ statement := tableDefinitions.users, rows := [adminRow 1], autoIncrement := 2 },
      adminRow 1, ?_, rfl, adminRow_user_type 1, adminRow_username 1⟩
    rw [hseed]
    simp [setTable]

theorem superAdminCount_pos {store : String → Option Table} (h : 0 < superAdminCount store) :
    ∃ tb, store "users" = some tb ∧ tb.rows.filter isSuperAdmin ≠ [] := by
  unfold superAdminCount at h
  rcases hu : store "users" with _ | tb
  · simp [hu] at h
  · rw [hu] at h
    exact ⟨tb, rfl, fun h2 => by simp [h2] at h⟩

theorem insert_ne_select : insertAdminSql ≠ selectSuperAdminSql := by decide

/-- With a `super_admin` in `users`, `seedInitialData` changes no table and sends no insertion,
whatever its calls answer. -/
theorem seedInitialData_noop (r : Run World DbError) (hs : 0 < superAdminCount r.env.store) :
    (seedInitialData mysqlPool r).2.env.store = r.env.store ∧
    ∃ new, (seedInitialData mysqlPool r).2.trace = r.trace ++ new ∧
      insertAdminSql ∉ statements new := by
  obtain ⟨tb, hu, hne⟩ := superAdminCount_pos hs
  rw [seedInitialData_run]
  rcases h0 : mysqlPool.getConnection r.env with ⟨e | c, s0⟩
  · exact ⟨acquire_store h0, _, rfl, by simp [statements]⟩
  have e0 := acquire_store h0
  dsimp only
  rcases h1 : mysqlPool.connQuery c selectSuperAdminSql [] s0 with ⟨e | rows, s1⟩
  · have e1 : s1.store = s0.store := funext fun n => connQuery_store h1 n (target_select n)
    refine ⟨?_, _, rfl, by simp [statements, insert_ne_select]⟩
    simp only [mysql_release_store, e1, e0]
  obtain ⟨e1, tb1, hu1, hrows⟩ := connQuery_ok_select h1
  rw [e0, hu] at hu1
  obtain rfl := Option.some.inj hu1
  have hr : ¬ rows.length = 0 := fun h2 => hne (hrows.mp h2)
  simp only [hr, if_false]
  refine ⟨?_, _, rfl, by simp [statements, insert_ne_select]⟩
  simp only [mysql_release_store, e1, e0]

theorem nextFault_none {w : World} (hf : w.faults = []) : nextFault w = (none, w) := by
  unfold nextFault
  rw [hf]

theorem getConnection_noFault {w : World} (hf : w.faults = []) :
    ∃ c w1, mysqlPool.getConnection w = (.ok c, w1) ∧ w1.faults = [] := by
  show ∃ c w1, World.getConnection w = (.ok c, w1) ∧ w1.faults = []
  unfold World.getConnection
  rw [nextFault_none hf]
  dsimp only
  cases w.free with
  | nil => exact ⟨_, _, rfl, hf⟩
  | cons c cs => exact ⟨_, _, rfl, hf⟩

/-- With a `super_admin` in `users` and no failure scheduled, `seedInitialData` resolves. -/
theorem seedInitialData_noop_ok (r : Run World DbError) (hf : r.env.faults = [])
    (hs : 0 < superAdminCount r.env.store) :
    (seedInitialData mysqlPool r).1 = .ok () := by
  obtain ⟨tb, hu, hne⟩ := superAdminCount_pos hs
  obtain ⟨c, s0, h0, hf0⟩ := getConnection_noFault hf
  have e0 := acquire_store h0
  rw [seedInitialData_run, h0]
  dsimp only
  have hq : mysqlPool.connQuery c selectSuperAdminSql [] s0 =
      (.ok (((tb.rows.filter isSuperAdmin).take 1).map
        fun row => [("id", (row.lookup "id").getD (.int 0))]), s0) := by
    show World.connQuery c selectSuperAdminSql [] s0 = _
    unfold World.connQuery
    rw [nextFault_none hf0]
    simp only [execStmt, parseSql_select, e0, hu]
  rw [hq]
  dsimp only
  have hlen : ¬ (((tb.rows.filter isSuperAdmin).take 1).map
      fun row => [("id", (row.lookup "id").getD (Value.int 0))]).length = 0 := by
    cases hfl : tb.rows.filter isSuperAdmin with
    | nil => exact absurd hfl hne
    | cons a l => simp
  simp only [hlen, if_false]

/-- C6: when `users` already holds a `super_admin`, whatever its username, `seedInitialData`
sends no INSERT and leaves `users` and every other table exactly as they were, whatever its
calls answer. -/
theorem seedInitialData_keeps_existing_admin (r : Run World DbError)
    (hs : 0 < superAdminCount r.env.store) :
    (∀ n, (seedInitialData mysqlPool r).2.env.store n = r.env.store n) ∧
    ∃ new, (seedInitialData mysqlPool r).2.trace = r.trace ++ new ∧
      insertAdminSql ∉ statements new :=
  ⟨fun n => congrFun (seedInitialData_noop r hs).1 n, (seedInitialData_noop r hs).2⟩

/-- C5: running `seedInitialData` a second time after a first run that resolved, with no
failure scheduled for the calls of the second run, resolves too and leaves the store as the
first run left it; there is then at least one `super_admin`, and at most one if there was at
most one before the first run. -/
theorem seedInitialData_idempotent (r r1 : Run World DbError) (tb : Table)
    (hu : r.env.store "users" = some tb)
    (h1 : seedInitialData mysqlPool r = (.ok (), r1))
    (hf : r1.env.faults = []) :
    (seedInitialData mysqlPool r1).1 = .ok () ∧
    (∀ n, (seedInitialData mysqlPool r1).2.env.store n = r1.env.store n) ∧
    0 < superAdminCount (seedInitialData mysqlPool r1).2.env.store ∧
    (superAdminCount r.env.store ≤ 1 →
      superAdminCount (seedInitialData mysqlPool r1).2.env.store ≤ 1) := by
  obtain ⟨tb1, hu1, hstore⟩ := seedInitialData_ok_store h1
  rw [hu] at hu1
  obtain rfl := Option.some.inj hu1
  have hcount : 0 < superAdminCount r1.env.store ∧
      (superAdminCount r.env.store ≤ 1 → superAdminCount r1.env.store ≤ 1) := by
    by_cases hfl : tb.rows.filter isSuperAdmin = []
    · rw [hstore]
      simp [superAdminCount, hfl, setTable, List.filter_append, isSuperAdmin_adminRow]
    · rw [hstore]
      simp only [hfl, if_false]
      refine ⟨?_, fun h => h⟩
      simp only [superAdminCount, hu]
      exact List.length_pos.mpr hfl
  have hnoop := seedInitialData_noop r1 hcount.1
  refine ⟨seedInitialData_noop_ok r1 hf hcount.1, fun n => congrFun hnoop.1 n, ?_, ?_⟩
  · rw [hnoop.1]
    exact hcount.1
  · rw [hnoop.1]
    exact hcount.2

/-- In the run of `initializeDatabase` on the empty store, every creation statement refers
only to `users` or `rooms`, never to its own table, and each table it refers to exists in the
world in which the statement arrives and was created by a statement sent before. -/
theorem references_checked :
    (sentOnEmptyStore.enum.all fun p =>
      match createdTable p.2.1 with
      | some t => (referencedTables p.2.1).all fun ref =>
          (ref == "users" || ref == "rooms") && (ref != t) && (p.2.2.store ref).isSome &&
          ((sentOnEmptyStore.take p.1).any fun e => createdTable e.1 == some ref)
      | none => true) = true := by
  decide!

theorem recorded_run :
    (initializeDatabase recordingPool ⟨(emptyWorld, []), []⟩).1 = .ok true ∧
    (initializeDatabase recordingPool ⟨(emptyWorld, []), []⟩).2.trace =
      (initializeDatabase mysqlPool (start emptyWorld)).2.trace ∧
    sentOnEmptyStore.map Prod.fst =
      statements (initializeDatabase mysqlPool (start emptyWorld)).2.trace ∧
    sentOnEmptyStore.filterMap (fun p => createdTable p.1) =
      ["users", "rooms", "housekeeping_tasks", "special_requests", "staff", "payments",
        "invoices", "tax_payments", "audit_logs"] := by
  decide!

/-- C8: in the run of `initializeDatabase` on the empty store, which resolves and creates the
nine tables in the order `users`, ..., `audit_logs`, take any creation statement `q` the run
sends, the table `t` it creates and a table `ref` named after `REFERENCES` in `q`: `ref` is
`users` or `rooms`, is not `t`, was created by a statement the run sent strictly before `q`, and
exists in the store at the moment `q` arrives. -/
theorem initializeDatabase_respects_foreign_keys (i : Nat) (q t ref : String) (w : World)
    (hi : sentOnEmptyStore[i]? = some (q, w)) (hq : createdTable q = some t)
    (href : ref ∈ referencedTables q) :
    (ref = "users" ∨ ref = "rooms") ∧ ref ≠ t ∧
    (∃ tb, w.store ref = some tb) ∧
    (∃ j q1 w1, j < i ∧ sentOnEmptyStore[j]? = some (q1, w1) ∧ createdTable q1 = some ref) ∧
    (initializeDatabase recordingPool ⟨(emptyWorld, []), []⟩).1 = .ok true ∧
    (initializeDatabase recordingPool ⟨(emptyWorld, []), []⟩).2.trace =
      (initializeDatabase mysqlPool (start emptyWorld)).2.trace ∧
    sentOnEmptyStore.map Prod.fst =
      statements (initializeDatabase mysqlPool (start emptyWorld)).2.trace ∧
    sentOnEmptyStore.filterMap (fun p => createdTable p.1) =
      ["users", "rooms", "housekeeping_tasks", "special_requests", "staff", "payments",
        "invoices", "tax_payments", "audit_logs"] := by
  have hmem : (i, (q, w)) ∈ sentOnEmptyStore.enum := List.mk_mem_enum_iff_getElem?.mpr hi
  have h := List.all_eq_true.mp references_checked _ hmem
  simp only [hq] at h
  have h2 := List.all_eq_true.mp h ref href
  simp only [Bool.and_eq_true, Bool.or_eq_true, beq_iff_eq, bne_iff_ne, ne_eq,
    List.any_eq_true] at h2
  obtain ⟨⟨⟨h3, h4⟩, h5⟩, e, he, hce⟩ := h2
  obtain ⟨j, hj, hje⟩ := List.mem_take_iff_getElem.mp he
  have hjlt : j < sentOnEmptyStore.length := lt_of_lt_of_le hj (min_le_right _ _)
  refine ⟨h3, h4, Option.isSome_iff_exists.mp h5,
    ⟨j, e.1, e.2, lt_of_lt_of_le hj (min_le_left _ _), ?_, hce⟩, recorded_run⟩
  rw [List.getElem?_eq_getElem hjlt, hje]

/-- C1, at a failing input: `createTable` with a creation statement the store rejects throws,
releases connection 0 to the pool, and leaves `FOREIGN_KEY_CHECKS` disabled on it, the
statement that enables it again never being sent; so does `initializeDatabase` when the third
creation fails. -/
theorem createTable_failure_leaves_checks_disabled :
    (createTable mysqlPool "housekeeping_tasks" malformedCreate (start emptyWorld)).1 =
      .error .parseError ∧
    statements (createTable mysqlPool "housekeeping_tasks" malformedCreate
      (start emptyWorld)).2.trace =
      ["SET FOREIGN_KEY_CHECKS = 0", "DROP TABLE IF EXISTS housekeeping_tasks",
        malformedCreate] ∧
    (createTable mysqlPool "housekeeping_tasks" malformedCreate
      (start emptyWorld)).2.env.free = [0] ∧
    (createTable mysqlPool "housekeeping_tasks" malformedCreate
      (start emptyWorld)).2.env.fkChecks 0 = false ∧
    (initializeDatabase mysqlPool (start thirdCreateFails)).1 =
      .error (.fault "ER_PARSE_ERROR") ∧
    (initializeDatabase mysqlPool (start thirdCreateFails)).2.env.free = [0] ∧
    (initializeDatabase mysqlPool (start thirdCreateFails)).2.env.fkChecks 0 = false := by
  refine ⟨?_, ?_, ?_, ?_, ?_, ?_, ?_⟩ <;> rfl

/-- C9, as stated, fails: when the connection is lost during the creation of `rooms`, and when
it is lost during the creation of `housekeeping_tasks`, `initializeDatabase` rejects with one
and the same value, the cause the driver raised; so the value it rejects with does not name the
failing table. -/
theorem rejection_names_no_table :
    statements (initializeDatabase mysqlPool (start (connectionLostAt 8))).2.trace =
      sentBy (rebuildOrder.take 1) ++
        ["SET FOREIGN_KEY_CHECKS = 0", "DROP TABLE IF EXISTS rooms", tableDefinitions.rooms] ∧
    statements (initializeDatabase mysqlPool (start (connectionLostAt 13))).2.trace =
      sentBy (rebuildOrder.take 2) ++
        ["SET FOREIGN_KEY_CHECKS = 0", "DROP TABLE IF EXISTS housekeeping_tasks",
          tableDefinitions.housekeeping_tasks] ∧
    (initializeDatabase mysqlPool (start (connectionLostAt 8))).1 =
      .error (.fault "PROTOCOL_CONNECTION_LOST") ∧
    (initializeDatabase mysqlPool (start (connectionLostAt 13))).1 =
      .error (.fault "PROTOCOL_CONNECTION_LOST") ∧
    ¬ ∃ tableOf : DbError → String,
      (∀ e, (initializeDatabase mysqlPool (start (connectionLostAt 8))).1 = .error e →
        tableOf e = "rooms") ∧
      (∀ e, (initializeDatabase mysqlPool (start (connectionLostAt 13))).1 = .error e →
        tableOf e = "housekeeping_tasks") := by
  have h8 : (initializeDatabase mysqlPool (start (connectionLostAt 8))).1 =
      .error (.fault "PROTOCOL_CONNECTION_LOST") := by decide!
  have h13 : (initializeDatabase mysqlPool (start (connectionLostAt 13))).1 =
      .error (.fault "PROTOCOL_CONNECTION_LOST") := by decide!
  refine ⟨by decide!, by decide!, h8, h13, ?_⟩
  rintro ⟨tableOf, hr, hh⟩
  have h1 := hr _ h8
  have h2 := hh _ h13
  rw [h1] at h2
  exact absurd h2 (by decide)

end Store

/-! ## The theorems at concrete inputs -/

section Witnesses

set_option maxRecDepth 100000

theorem connection_released_exactly_once_witness :
    mysqlPool.getConnection (start emptyWorld).env =
      (.ok 0, (mysqlPool.getConnection emptyWorld).2) ∧
    ReleasedOnce 0 (start emptyWorld).trace
      (createTable mysqlPool "users" tableDefinitions.users (start emptyWorld)).2.trace ∧
    ReleasedOnce 0 (start emptyWorld).trace
      (seedInitialData mysqlPool (start emptyWorld)).2.trace :=
  have h := connection_released_exactly_once mysqlPool "users" tableDefinitions.users
    (start emptyWorld) 0 (mysqlPool.getConnection emptyWorld).2 rfl
  ⟨rfl, h.1.1, h.2.1⟩

theorem initializeDatabase_order_witness :
    (initializeDatabase mysqlPool (start emptyWorld)).1 = .ok true ∧
    ∃ seeding,
      (seeding = [selectSuperAdminSql] ∨ seeding = [selectSuperAdminSql, insertAdminSql]) ∧
      statements (initializeDatabase mysqlPool (start emptyWorld)).2.trace =
        sentBy rebuildOrder ++ seeding :=
  ⟨rfl, (initializeDatabase_order mysqlPool (start emptyWorld) true rfl).2⟩

theorem createTable_rethrows_cause_witness :
    (mysqlPool.getConnection thirdRun.env).1 = .ok 0 ∧
    (createTable mysqlPool "housekeeping_tasks" tableDefinitions.housekeeping_tasks
      thirdRun).1 = .error (.fault "ER_PARSE_ERROR") ∧
    Event.consoleError "❌ Erreur création table housekeeping_tasks:" (.fault "ER_PARSE_ERROR") ∈
      (createTable mysqlPool "housekeeping_tasks" tableDefinitions.housekeeping_tasks
        thirdRun).2.trace ∧
    (initializeDatabase mysqlPool (start thirdCreateFails)).1 =
      .error (.fault "ER_PARSE_ERROR") := by
  have hc : (mysqlPool.getConnection thirdRun.env).1 = .ok 0 := by decide!
  have h := createTable_rethrows_cause mysqlPool "housekeeping_tasks"
    tableDefinitions.housekeeping_tasks thirdRun 0 _ _ [] (.fault "ER_PARSE_ERROR")
    (eq_mk_snd hc) (eq_mk_snd (by decide!))
    (Or.inr ⟨[], _, _, eq_mk_snd (by decide!), eq_mk_snd (by decide!)⟩)
  exact ⟨hc, h.1, h.2.1,
    (h.2.2 (start thirdCreateFails) 2 (by decide) (eq_mk_snd (by decide!))).1⟩

theorem initializeDatabase_stops_at_failure_witness :
    rebuildOrder[2]? = some ("housekeeping_tasks", tableDefinitions.housekeeping_tasks) ∧
    (initializeDatabase mysqlPool (start thirdCreateFails)).1 =
      .error (.fault "ER_PARSE_ERROR") ∧
    selectSuperAdminSql ∉
      statements (initializeDatabase mysqlPool (start thirdCreateFails)).2.trace ∧
    ∀ tq ∈ rebuildOrder.drop 3,
      (initializeDatabase mysqlPool (start thirdCreateFails)).2.env.store tq.1 =
        thirdCreateFails.store tq.1 := by
  have hk : rebuildOrder[2]? =
      some ("housekeeping_tasks", tableDefinitions.housekeeping_tasks) := by decide
  have hpre : rebuildAll mysqlPool (rebuildOrder.take 2)
      ⟨thirdCreateFails, [.consoleLog "🚀 Début initialisation DB..."]⟩ = (.ok (), thirdRun) :=
    eq_mk_snd (by decide!)
  have h := initializeDatabase_stops_at_failure thirdCreateFails 2 "housekeeping_tasks"
    tableDefinitions.housekeeping_tasks thirdRun _ (.fault "ER_PARSE_ERROR") hk hpre
    (eq_mk_snd (by decide!))
  exact ⟨hk, h.1, h.2.2.2.2.1, fun tq htq => (h.2.2.2.2.2.2 tq htq).2.2⟩

theorem initializeDatabase_resets_store_witness :
    superAdminCount populatedWorld.store = 2 ∧
    (initializeDatabase mysqlPool (start populatedWorld)).1 = .ok true ∧
    superAdminCount (initializeDatabase mysqlPool (start populatedWorld)).2.env.store = 1 ∧
    ∃ tb row, (initializeDatabase mysqlPool (start populatedWorld)).2.env.store "users" =
        some tb ∧ tb.rows = [row] ∧ row.lookup "user_type" = some (.text "super_admin") ∧
      row.lookup "username" = some (.text "admin") :=
  ⟨rfl, rfl, rfl, (initializeDatabase_resets_store (start populatedWorld) true rfl).2⟩

theorem seedInitialData_idempotent_witness :
    (seedInitialData mysqlPool (start freshUsersWorld)).1 = .ok () ∧
    (seedInitialData mysqlPool (seedInitialData mysqlPool (start freshUsersWorld)).2).1 =
      .ok () ∧
    superAdminCount (seedInitialData mysqlPool
      (seedInitialData mysqlPool (start freshUsersWorld)).2).2.env.store ≤ 1 :=
  have h := seedInitialData_idempotent (start freshUsersWorld)
    (seedInitialData mysqlPool (start freshUsersWorld)).2
    { statement := tableDefinitions.users, rows := [], autoIncrement := 1 } rfl rfl rfl
  ⟨rfl, h.1, h.2.2.2 (by decide)⟩

theorem seedInitialData_keeps_existing_admin_witness :
    0 < superAdminCount (start rootOnlyWorld).env.store ∧
    (∀ n, (seedInitialData mysqlPool (start rootOnlyWorld)).2.env.store n =
      rootOnlyWorld.store n) ∧
    statements (seedInitialData mysqlPool (start rootOnlyWorld)).2.trace =
      [selectSuperAdminSql] :=
  ⟨by decide, (seedInitialData_keeps_existing_admin (start rootOnlyWorld) (by decide)).1, rfl⟩

theorem initializeDatabase_respects_foreign_keys_witness :
    createdTable tableDefinitions.housekeeping_tasks = some "housekeeping_tasks" ∧
    "rooms" ∈ referencedTables tableDefinitions.housekeeping_tasks ∧
    ∃ w, sentOnEmptyStore[10]? = some (tableDefinitions.housekeeping_tasks, w) ∧
      (∃ tb, w.store "rooms" = some tb) ∧
      ∃ j q1 w1, j < 10 ∧ sentOnEmptyStore[j]? = some (q1, w1) ∧
        createdTable q1 = some "rooms" := by
  have hq : sentOnEmptyStore[10]?.map Prod.fst = some tableDefinitions.housekeeping_tasks := by
    decide!
  have hc : createdTable tableDefinitions.housekeeping_tasks = some "housekeeping_tasks" := by
    decide!
  have href : "rooms" ∈ referencedTables tableDefinitions.housekeeping_tasks := by decide!
  rcases hx : sentOnEmptyStore[10]? with _ | ⟨q, w⟩
  · rw [hx] at hq
    exact absurd hq (by simp)
  · rw [hx] at hq
    obtain rfl : q = tableDefinitions.housekeeping_tasks := Option.some.inj hq
    have h := initializeDatabase_respects_foreign_keys 10 tableDefinitions.housekeeping_tasks
      "housekeeping_tasks" "rooms" w hx hc href
    exact ⟨hc, href, w, rfl, h.2.2.1, h.2.2.2.1⟩

end Witnesses

end PMS
